import Mathlib

/-!
DigitalPersonaWin32Wrapper: the command executor and its JSON responses.

A shallow embedding of `src/backend/utils/DigitalPersonaWin32Wrapper.cpp`.

* A `std::string` is a Lean `String` and a `char` a `Char`; `+=` is `++`.  The only place
  where the code looks at a character is the `switch` of `escapeJsonString`, which singles out
  seven ASCII characters and copies every other one.
* `int` results are `Int`, `unsigned int` counts and tick counts are `Nat`.  The code does no
  arithmetic on them apart from the loop counter, which stays below `dev_cnt`.
* The vendor SDK and the system clock are the environment: `Sdk` records what each call answers
  during one invocation, and every run returns the list of SDK calls it made.
* The construction of the device vector may throw; the `catch` handler then builds the
  response.
* A read outside the device buffer is undefined behaviour: the run has no output (`none`).

The second half of the file is the reading side: a parser for JSON texts, with which the
responses are checked as a consuming host would read them.
-/

namespace DigitalPersona

/-! ## Data model -/

/-- The record `DPFPDD_DEV_INFO`.  The four `char[]` members are held as the C strings that
`std::string(const char*)` reads from them. -/
structure DPFPDD_DEV_INFO where
  size : Nat
  name : String
  vendor_name : String
  product_name : String
  serial_num : String
  vendor_id : Nat
  product_id : Nat
  modality : Nat
  technology : Nat

/-- One call of an SDK entry point: its arguments (`dev_infos` is `none` for `nullptr`, `some n`
for a buffer of `n` records) and the code it returned. -/
inductive SdkCall where
  | dpfpdd_init (result : Int)
  | dpfpdd_exit (result : Int)
  | dpfpdd_query_devices (dev_cnt : Nat) (dev_infos : Option Nat) (result : Int)
  deriving DecidableEq

/-- The code an SDK call returned. -/
def SdkCall.result : SdkCall → Int
  | .dpfpdd_init r => r
  | .dpfpdd_exit r => r
  | .dpfpdd_query_devices _ _ r => r

/-- The behaviour of the environment during one invocation of the program. -/
structure Sdk where
  /-- the code returned by `dpfpdd_init()` -/
  init_result : Int
  /-- the code returned by `dpfpdd_exit()` -/
  exit_result : Int
  /-- the code returned by `dpfpdd_query_devices(&dev_cnt, nullptr)` -/
  query1_result : Int
  /-- the value of `dev_cnt` after that call (it was 0 before) -/
  query1_cnt : Nat
  /-- the code returned by `dpfpdd_query_devices(&dev_cnt, devices.data())` -/
  query2_result : Int
  /-- the value of `dev_cnt` after the second call -/
  query2_cnt : Nat
  /-- record `i` of the buffer after the second call -/
  query2_infos : Nat → DPFPDD_DEV_INFO
  /-- the outcome of constructing `std::vector<DPFPDD_DEV_INFO>(n)`: `none` when it succeeds,
  `some what` when it throws a `std::exception` whose `what()` is `what` -/
  vector_alloc : Nat → Option String
  /-- the value of the first read of `GetTickCount64()` -/
  tick1 : Nat
  /-- the value of the second read of `GetTickCount64()` -/
  tick2 : Nat

/-- What a run of `executeCommand` did: the SDK calls in order, and the string it returned
(`none` when the run read outside the device buffer). -/
structure Run where
  calls : List SdkCall
  response : Option String
  deriving DecidableEq

/-- `std::to_string` on an integer: the decimal digits, with a leading minus sign for a
negative value. -/
def to_string (n : Int) : String := toString n

/-! ## The program -/

/-- The `switch` of `escapeJsonString`: the text appended for one character. -/
def escapeChar (c : Char) : String :=
  match c with
  | '"' => "\\\""
  | '\\' => "\\\\"
  | '\x08' => "\\b"
  | '\x0c' => "\\f"
  | '\n' => "\\n"
  | '\r' => "\\r"
  | '\t' => "\\t"
  | c => String.singleton c

/-- `escapeJsonString`: the loop over the characters of `str`. -/
def escapeJsonString (str : String) : String :=
  str.data.foldl (fun escaped c => escaped ++ escapeChar c) ""

/-- The body of the device loop of the `query` branch for index `i`: what it appends to
`response`.  `devices[i]` is a read of the vector, which has `devices.length` records. -/
def deviceEntry (devices : List DPFPDD_DEV_INFO) (response : String) (i : Nat) :
    Option String :=
  match devices[i]? with
  | none => none
  | some d =>
    let response := if i > 0 then response ++ "," else response
    let response := response ++ "\x7b"
    let response := response ++ ("\"id\":" ++ to_string i ++ ",")
    let response := response ++ ("\"name\":\"" ++ escapeJsonString d.name ++ "\",")
    let response := response ++ ("\"vendor_name\":\"" ++ escapeJsonString d.vendor_name ++ "\",")
    let response := response ++ ("\"product_name\":\"" ++ escapeJsonString d.product_name ++ "\",")
    let response := response ++ ("\"serial_number\":\"" ++ escapeJsonString d.serial_num ++ "\",")
    let response := response ++ ("\"model\":\"" ++ escapeJsonString d.product_name ++ "\",")
    let response := response ++ "\"connected\":true"
    let response := response ++ "\x7d"
    some response

/-- The loop `for (unsigned int i = 0; i < dev_cnt; i++)` of the `query` branch. -/
def deviceLoop (devices : List DPFPDD_DEV_INFO) (dev_cnt : Nat) (response : String) :
    Option String :=
  (List.range dev_cnt).foldlM (deviceEntry devices) response

/-- The `catch (const std::exception& e)` handler of `executeCommand`. -/
def catchResponse (command what : String) : String :=
  let response := "\x7b"
  let response := response ++ ("\"action\":\"" ++ command ++ "\",")
  let response := response ++ "\"status\":\"error\","
  let response := response ++ ("\"message\":\"Exception: " ++ escapeJsonString what ++ "\"")
  let response := response ++ "\x7d"
  response

/-- The `init` branch of `executeCommand`. -/
def executeInit (sdk : Sdk) : Run :=
  let result := sdk.init_result
  let response := "\x7b"
  let response := response ++ "\"action\":\"init\","
  let response :=
    if result = 0 then
      (response ++ "\"status\":\"success\",")
        ++ "\"message\":\"DigitalPersona Win32 SDK initialized successfully\","
    else
      (response ++ "\"status\":\"error\",")
        ++ "\"message\":\"Failed to initialize DigitalPersona Win32 SDK\","
  let response := response ++ ("\"result_code\":" ++ to_string result)
  let response := response ++ "\x7d"
  ⟨[.dpfpdd_init result], some response⟩

/-- The `query` branch of `executeCommand`.  The two statements that follow the `if` chain in
the source (`result_code` and the closing brace) end each arm here. -/
def executeQuery (sdk : Sdk) (command : String) : Run :=
  let dev_cnt := sdk.query1_cnt
  let result := sdk.query1_result
  let call1 := SdkCall.dpfpdd_query_devices 0 none result
  let response := "\x7b"
  let response := response ++ "\"action\":\"query\","
  if result = 0 ∧ dev_cnt > 0 then
    match sdk.vector_alloc dev_cnt with
    | some what => ⟨[call1], some (catchResponse command what)⟩
    | none =>
      let devices := (List.range dev_cnt).map sdk.query2_infos
      let call2 := SdkCall.dpfpdd_query_devices dev_cnt (some dev_cnt) sdk.query2_result
      let result := sdk.query2_result
      let dev_cnt := sdk.query2_cnt
      if result = 0 then
        let response := response ++ "\"status\":\"success\","
        let response := response ++ "\"devices\":["
        match deviceLoop devices dev_cnt response with
        | none => ⟨[call1, call2], none⟩
        | some response =>
          let response := response ++ "],"
          let response := response ++ ("\"deviceCount\":" ++ to_string dev_cnt ++ ",")
          let response := response ++ "\"message\":\"Device enumeration completed\""
          let response := response ++ (",\"result_code\":" ++ to_string result)
          let response := response ++ "\x7d"
          ⟨[call1, call2], some response⟩
      else
        let response := response ++ "\"status\":\"error\","
        let response := response ++ "\"message\":\"Failed to query device details\""
        let response := response ++ (",\"result_code\":" ++ to_string result)
        let response := response ++ "\x7d"
        ⟨[call1, call2], some response⟩
  else if dev_cnt = 0 then
    let response := response ++ "\"status\":\"success\","
    let response := response ++ "\"devices\":[],"
    let response := response ++ "\"deviceCount\":0,"
    let response := response ++ "\"message\":\"No DigitalPersona devices found\""
    let response := response ++ (",\"result_code\":" ++ to_string result)
    let response := response ++ "\x7d"
    ⟨[call1], some response⟩
  else
    let response := response ++ "\"status\":\"error\","
    let response := response ++ "\"message\":\"Failed to query devices\""
    let response := response ++ (",\"result_code\":" ++ to_string result)
    let response := response ++ "\x7d"
    ⟨[call1], some response⟩

/-- The `capture` branch of `executeCommand`. -/
def executeCapture (sdk : Sdk) : Run :=
  let response := "\x7b"
  let response := response ++ "\"action\":\"capture\","
  let response := response ++ "\"status\":\"success\","
  let response := response ++ "\"quality\":\"simulated\","
  let response := response ++ "\"deviceName\":\"DigitalPersona Reader (Win32)\","
  let response := response ++ ("\"timestamp\":" ++ to_string sdk.tick1 ++ ",")
  let response := response ++
    "\"message\":\"Fingerprint capture simulated - native win32 library communication successful\","
  let response := response ++
    ("\"simulatedData\":\"DP_WIN32_FINGERPRINT_DATA_" ++ to_string sdk.tick2 ++ "\",")
  let response := response ++
    "\"note\":\"This is a simulated response from native win32 libraries\""
  let response := response ++ "\x7d"
  ⟨[], some response⟩

/-- The `cleanup` branch of `executeCommand`. -/
def executeCleanup (sdk : Sdk) : Run :=
  let result := sdk.exit_result
  let response := "\x7b"
  let response := response ++ "\"action\":\"cleanup\","
  let response :=
    if result = 0 then
      (response ++ "\"status\":\"success\",")
        ++ "\"message\":\"DigitalPersona Win32 SDK cleaned up successfully\""
    else
      (response ++ "\"status\":\"error\",")
        ++ "\"message\":\"Failed to cleanup DigitalPersona Win32 SDK\""
  let response := response ++ (",\"result_code\":" ++ to_string result)
  let response := response ++ "\x7d"
  ⟨[.dpfpdd_exit result], some response⟩

/-- The final `else` branch of `executeCommand`. -/
def executeUnknown (command : String) : Run :=
  let response := "\x7b"
  let response := response ++ "\"action\":\"unknown\","
  let response := response ++ "\"status\":\"error\","
  let response := response ++ ("\"message\":\"Unknown command: " ++ escapeJsonString command ++ "\"")
  let response := response ++ "\x7d"
  ⟨[], some response⟩

/-- `executeCommand`: the dispatch over the command string.  The only statement of the `try`
block that the model lets throw is the construction of the device vector. -/
def executeCommand (sdk : Sdk) (command : String) : Run :=
  if command = "init" then executeInit sdk
  else if command = "query" then executeQuery sdk command
  else if command = "capture" then executeCapture sdk
  else if command = "cleanup" then executeCleanup sdk
  else executeUnknown command

/-- What the process did: the SDK calls, the text written to standard output (`none` when the
run has undefined behaviour) and the exit code. -/
structure Exit where
  calls : List SdkCall
  stdout : Option String
  code : Int
  deriving DecidableEq

/-- `main`: `argv` holds the program name followed by the arguments, `argc` is its length;
`std::endl` writes a line feed. -/
def main (sdk : Sdk) (argv : List String) : Exit :=
  match argv with
  | _ :: command :: _ =>
    let run := executeCommand sdk command
    ⟨run.calls, run.response.map (fun result => result ++ "\n"), 0⟩
  | _ => ⟨[], some ("\x7b\"error\":\"No command specified\"\x7d" ++ "\n"), 1⟩

/-! ## JSON texts (RFC 8259)

The reading side of the contract: what a consuming host does with the printed line.  These
definitions follow the JSON grammar, not the program. -/

/-- A JSON value.  A number keeps its lexeme. -/
inductive Json where
  | null
  | bool (b : Bool)
  | num (lexeme : String)
  | str (s : String)
  | arr (items : List Json)
  | obj (members : List (String × Json))

/-- JSON whitespace: space, tab, line feed, carriage return. -/
def isWhitespace (c : Char) : Bool :=
  c = ' ' || c = '\t' || c = '\n' || c = '\r'

/-- Drops leading whitespace. -/
def skipWhitespace : List Char → List Char
  | [] => []
  | c :: cs => if isWhitespace c then skipWhitespace cs else c :: cs

/-- The value of a hexadecimal digit. -/
def hexDigit (c : Char) : Option Nat :=
  if '0' ≤ c ∧ c ≤ '9' then some (c.toNat - 48)
  else if 'a' ≤ c ∧ c ≤ 'f' then some (c.toNat - 87)
  else if 'A' ≤ c ∧ c ≤ 'F' then some (c.toNat - 55)
  else none

/-- Where the reader of a string literal stands: between characters, after a backslash,
inside the four hexadecimal digits of a `\\u` escape (with the high surrogate that precedes it,
if any, the number of digits read and their value), or after a high surrogate, where a
backslash and then a `u` must follow. -/
inductive StringState where
  | normal
  | escape
  | hex (high : Option Nat) (count : Nat) (value : Nat)
  | lowBackslash (high : Nat)
  | lowU (high : Nat)

/-- Reads a string literal from the given state: the decoded characters up to the closing
quote, and the text that follows it.  An unescaped control character (below U+0020), an
unknown escape, a lone surrogate or a missing closing quote is an error. -/
def readStringFrom : StringState → List Char → Option (List Char × List Char)
  | _, [] => none
  | StringState.normal, c :: rest =>
    if c = '"' then some ([], rest)
    else if c = '\\' then readStringFrom StringState.escape rest
    else if c.toNat < 0x20 then none
    else (readStringFrom StringState.normal rest).map (fun r => (c :: r.1, r.2))
  | StringState.escape, e :: rest =>
    if e = '"' then (readStringFrom StringState.normal rest).map (fun r => ('"' :: r.1, r.2))
    else if e = '\\' then
      (readStringFrom StringState.normal rest).map (fun r => ('\\' :: r.1, r.2))
    else if e = '/' then (readStringFrom StringState.normal rest).map (fun r => ('/' :: r.1, r.2))
    else if e = 'b' then
      (readStringFrom StringState.normal rest).map (fun r => ('\x08' :: r.1, r.2))
    else if e = 'f' then
      (readStringFrom StringState.normal rest).map (fun r => ('\x0c' :: r.1, r.2))
    else if e = 'n' then (readStringFrom StringState.normal rest).map (fun r => ('\n' :: r.1, r.2))
    else if e = 'r' then (readStringFrom StringState.normal rest).map (fun r => ('\r' :: r.1, r.2))
    else if e = 't' then (readStringFrom StringState.normal rest).map (fun r => ('\t' :: r.1, r.2))
    else if e = 'u' then readStringFrom (StringState.hex none 0 0) rest
    else none
  | StringState.hex high count value, c :: rest =>
    match hexDigit c with
    | none => none
    | some digit =>
      if count < 3 then readStringFrom (StringState.hex high (count + 1) (value * 16 + digit)) rest
      else
        match high with
        | none =>
          if 0xD800 ≤ value * 16 + digit ∧ value * 16 + digit < 0xDC00 then
            readStringFrom (StringState.lowBackslash (value * 16 + digit)) rest
          else if 0xDC00 ≤ value * 16 + digit ∧ value * 16 + digit < 0xE000 then none
          else
            (readStringFrom StringState.normal rest).map
              (fun r => (Char.ofNat (value * 16 + digit) :: r.1, r.2))
        | some hi =>
          if 0xDC00 ≤ value * 16 + digit ∧ value * 16 + digit < 0xE000 then
            (readStringFrom StringState.normal rest).map (fun r =>
              (Char.ofNat (0x10000 + (hi - 0xD800) * 0x400 + (value * 16 + digit - 0xDC00)) :: r.1,
                r.2))
          else none
  | StringState.lowBackslash high, c :: rest =>
    if c = '\\' then readStringFrom (StringState.lowU high) rest else none
  | StringState.lowU high, c :: rest =>
    if c = 'u' then readStringFrom (StringState.hex (some high) 0 0) rest else none

/-- Reads a string literal after its opening quote. -/
def readString (cs : List Char) : Option (List Char × List Char) :=
  readStringFrom StringState.normal cs

/-- Decodes a text that is one JSON string literal, quotes included. -/
def decodeJsonString (text : String) : Option String :=
  match text.data with
  | '"' :: rest =>
    match readString rest with
    | some (s, []) => some (String.mk s)
    | _ => none
  | _ => none

/-- A decimal digit. -/
def isDigit (c : Char) : Bool := decide ('0' ≤ c ∧ c ≤ '9')

/-- The longest run of digits at the head, and what follows. -/
def takeDigits : List Char → List Char × List Char
  | [] => ([], [])
  | c :: cs =>
    if isDigit c then ((c :: (takeDigits cs).1), (takeDigits cs).2) else ([], c :: cs)

/-- The integer part of a number: `0`, or a non-zero digit followed by digits. -/
def readIntPart : List Char → Option (List Char × List Char)
  | [] => none
  | c :: cs =>
    if c = '0' then some (['0'], cs)
    else if isDigit c then some (c :: (takeDigits cs).1, (takeDigits cs).2)
    else none

/-- At least one digit, appended to `mark`. -/
def readDigits (mark : List Char) (cs : List Char) : Option (List Char × List Char) :=
  if (takeDigits cs).1 = [] then none
  else some (mark ++ (takeDigits cs).1, (takeDigits cs).2)

/-- The optional fraction of a number: a point followed by at least one digit. -/
def readFraction : List Char → Option (List Char × List Char)
  | [] => some ([], [])
  | c :: cs => if c = '.' then readDigits ['.'] cs else some ([], c :: cs)

/-- The optional exponent of a number: `e` or `E`, an optional sign, at least one digit. -/
def readExponent : List Char → Option (List Char × List Char)
  | [] => some ([], [])
  | e :: cs =>
    if e = 'e' ∨ e = 'E' then
      match cs with
      | [] => none
      | c :: cs' => if c = '+' ∨ c = '-' then readDigits [e, c] cs' else readDigits [e] cs
    else some ([], e :: cs)

/-- Reads an unsigned number: integer part, optional fraction, optional exponent. -/
def readUnsigned (cs : List Char) : Option (List Char × List Char) :=
  match readIntPart cs with
  | none => none
  | some (i, cs) =>
    match readFraction cs with
    | none => none
    | some (f, cs) =>
      match readExponent cs with
      | none => none
      | some (e, cs) => some (i ++ f ++ e, cs)

/-- Reads a number: its lexeme and the text that follows. -/
def readNumber : List Char → Option (List Char × List Char)
  | [] => none
  | c :: cs =>
    if c = '-' then (readUnsigned cs).map (fun r => ('-' :: r.1, r.2))
    else readUnsigned (c :: cs)

/-- A text at which a number ends: it is empty or starts with no digit, point or exponent
mark. -/
def endsNumber : List Char → Bool
  | [] => true
  | c :: _ => !(isDigit c || c = '.' || c = 'e' || c = 'E')

/-- Reads the fixed word of `null`, `true` or `false`. -/
def readWord (word : List Char) (value : Json) (cs : List Char) : Option (Json × List Char) :=
  if word.isPrefixOf cs then some (value, cs.drop word.length) else none

mutual
/-- Reads one JSON value (leading whitespace allowed) with at most `fuel` nested reads. -/
def readValue : Nat → List Char → Option (Json × List Char)
  | 0, _ => none
  | fuel + 1, cs =>
    match skipWhitespace cs with
    | [] => none
    | c :: rest =>
      if c = '"' then (readString rest).map (fun r => (Json.str (String.mk r.1), r.2))
      else if c = '[' then
        match skipWhitespace rest with
        | [] => none
        | d :: rest' =>
          if d = ']' then some (Json.arr [], rest')
          else (readItems fuel (d :: rest')).map (fun r => (Json.arr r.1, r.2))
      else if c = '\x7b' then
        match skipWhitespace rest with
        | [] => none
        | d :: rest' =>
          if d = '\x7d' then some (Json.obj [], rest')
          else (readMembers fuel (d :: rest')).map (fun r => (Json.obj r.1, r.2))
      else if c = 'n' then readWord ['n', 'u', 'l', 'l'] Json.null (c :: rest)
      else if c = 't' then readWord ['t', 'r', 'u', 'e'] (Json.bool true) (c :: rest)
      else if c = 'f' then readWord ['f', 'a', 'l', 's', 'e'] (Json.bool false) (c :: rest)
      else (readNumber (c :: rest)).map (fun r => (Json.num (String.mk r.1), r.2))
/-- Reads the items of a non-empty array up to and including the closing bracket. -/
def readItems : Nat → List Char → Option (List Json × List Char)
  | 0, _ => none
  | fuel + 1, cs =>
    match readValue fuel cs with
    | none => none
    | some (v, rest) =>
      match skipWhitespace rest with
      | [] => none
      | c :: rest =>
        if c = ',' then (readItems fuel rest).map (fun r => (v :: r.1, r.2))
        else if c = ']' then some ([v], rest)
        else none
/-- Reads the members of a non-empty object up to and including the closing brace. -/
def readMembers : Nat → List Char → Option (List (String × Json) × List Char)
  | 0, _ => none
  | fuel + 1, cs =>
    match skipWhitespace cs with
    | [] => none
    | q :: rest =>
      if q = '"' then
        match readString rest with
        | none => none
        | some (k, rest) =>
          match skipWhitespace rest with
          | [] => none
          | c :: rest =>
            if c = ':' then
              match readValue fuel rest with
              | none => none
              | some (v, rest) =>
                match skipWhitespace rest with
                | [] => none
                | c :: rest =>
                  if c = ',' then
                    (readMembers fuel rest).map (fun r => ((String.mk k, v) :: r.1, r.2))
                  else if c = '\x7d' then some ([(String.mk k, v)], rest)
                  else none
            else none
      else none
end

/-- Parses a whole text as one JSON value; `none` when the text is not valid JSON.  Every
nested read consumes a character first, so the length of the text is fuel enough. -/
def parseJson (text : String) : Option Json :=
  match readValue (text.length + 1) text.data with
  | some (v, rest) => if skipWhitespace rest = [] then some v else none
  | none => none

/-- The value of the first member named `key` of an object. -/
def Json.field (key : String) : Json → Option Json
  | Json.obj members => (members.find? (fun m => m.1 = key)).map (fun m => m.2)
  | _ => none

/-- The number written by a run of decimal digits. -/
def decimalValue (ds : List Char) : Nat :=
  ds.foldl (fun acc c => acc * 10 + (c.toNat - 48)) 0

/-- The integer a lexeme denotes, when the lexeme is an optional minus sign followed by
decimal digits. -/
def readInt (lexeme : String) : Option Int :=
  match lexeme.data with
  | [] => none
  | c :: cs =>
    if c = '-' then
      if cs ≠ [] ∧ cs.all isDigit then some (-(decimalValue cs : Int)) else none
    else if (c :: cs).all isDigit then some (decimalValue (c :: cs) : Int)
    else none

/-- The integer value of a JSON number without fraction or exponent. -/
def Json.toInt : Json → Option Int
  | Json.num lexeme => readInt lexeme
  | _ => none

/-- A character that `escapeJsonString` handles as JSON requires: the five control characters
it has a case for, and every character from U+0020 on. -/
def escapable (c : Char) : Bool :=
  decide (0x20 ≤ c.toNat) || c = '\x08' || c = '\x0c' || c = '\n' || c = '\r' || c = '\t'

mutual
/-- The compact text of a JSON value: no whitespace, members in order, strings escaped with
`escapeJsonString`, numbers by their lexeme. -/
def Json.render : Json → List Char
  | Json.null => ['n', 'u', 'l', 'l']
  | Json.bool true => ['t', 'r', 'u', 'e']
  | Json.bool false => ['f', 'a', 'l', 's', 'e']
  | Json.num lexeme => lexeme.data
  | Json.str s => '"' :: (escapeJsonString s).data ++ ['"']
  | Json.arr items => '[' :: renderItems items
  | Json.obj members => '\x7b' :: renderMembers members
/-- The items of an array and its closing bracket. -/
def renderItems : List Json → List Char
  | [] => [']']
  | v :: vs =>
    match vs with
    | [] => Json.render v ++ [']']
    | _ :: _ => Json.render v ++ ',' :: renderItems vs
/-- The members of an object and its closing brace. -/
def renderMembers : List (String × Json) → List Char
  | [] => ['\x7d']
  | (k, v) :: ms =>
    match ms with
    | [] => '"' :: (escapeJsonString k).data ++ '"' :: ':' :: Json.render v ++ ['\x7d']
    | _ :: _ =>
      '"' :: (escapeJsonString k).data ++ '"' :: ':' :: Json.render v ++ ',' :: renderMembers ms
end

mutual
/-- A bound on the nested reads that reading `Json.render j` back takes. -/
def Json.reads : Json → Nat
  | Json.arr items => readsItems items + 1
  | Json.obj members => readsMembers members + 1
  | _ => 1
/-- The bound for the items of an array. -/
def readsItems : List Json → Nat
  | [] => 0
  | v :: vs => Json.reads v + readsItems vs + 1
/-- The bound for the members of an object. -/
def readsMembers : List (String × Json) → Nat
  | [] => 0
  | (_, v) :: ms => Json.reads v + readsMembers ms + 1
end

mutual
/-- A value whose strings hold only characters that `escapeJsonString` handles as JSON
requires, and whose numbers are decimal integers. -/
def Json.Plain : Json → Prop
  | Json.num lexeme => ∃ n : Int, lexeme = to_string n
  | Json.str s => ∀ c ∈ s.data, escapable c = true
  | Json.arr items => plainItems items
  | Json.obj members => plainMembers members
  | _ => True
/-- All items are plain. -/
def plainItems : List Json → Prop
  | [] => True
  | v :: vs => Json.Plain v ∧ plainItems vs
/-- All keys and member values are plain. -/
def plainMembers : List (String × Json) → Prop
  | [] => True
  | (k, v) :: ms => (∀ c ∈ k.data, escapable c = true) ∧ Json.Plain v ∧ plainMembers ms
end

/-- The text of one serialized device: the object the `query` response lists for record `d` at
index `i`. -/
def deviceObject (i : Nat) (d : DPFPDD_DEV_INFO) : String :=
  "\x7b\"id\":" ++ to_string i
    ++ ",\"name\":\"" ++ escapeJsonString d.name
    ++ "\",\"vendor_name\":\"" ++ escapeJsonString d.vendor_name
    ++ "\",\"product_name\":\"" ++ escapeJsonString d.product_name
    ++ "\",\"serial_number\":\"" ++ escapeJsonString d.serial_num
    ++ "\",\"model\":\"" ++ escapeJsonString d.product_name
    ++ "\",\"connected\":true\x7d"

/-- The JSON object that `deviceObject` writes, when the strings of the record need no
escaping beyond what `escapeJsonString` does. -/
def deviceJson (i : Nat) (d : DPFPDD_DEV_INFO) : Json :=
  Json.obj [("id", Json.num (to_string i)), ("name", Json.str d.name),
    ("vendor_name", Json.str d.vendor_name), ("product_name", Json.str d.product_name),
    ("serial_number", Json.str d.serial_num), ("model", Json.str d.product_name),
    ("connected", Json.bool true)]

/-- A record whose four strings hold only characters that `escapeJsonString` handles as JSON
requires. -/
def plainInfo (d : DPFPDD_DEV_INFO) : Prop :=
  (∀ c ∈ d.name.data, escapable c = true) ∧ (∀ c ∈ d.vendor_name.data, escapable c = true) ∧
    (∀ c ∈ d.product_name.data, escapable c = true) ∧
    (∀ c ∈ d.serial_num.data, escapable c = true)

/-- The texts in `xs`, separated by commas. -/
def commaSeparated : List String → String
  | [] => ""
  | [x] => x
  | x :: y :: rest => x ++ "," ++ commaSeparated (y :: rest)

/-! ## Sample environments -/

/-- A device record as a reader reports it. -/
def sampleInfo : DPFPDD_DEV_INFO :=
  ⟨1420, "U.are.U 4500", "DigitalPersona", "Fingerprint Reader", "A1B2", 1466, 10, 1, 2⟩

/-- An environment in which every call succeeds and no reader is attached. -/
def noDeviceSdk : Sdk :=
  ⟨0, 0, 0, 0, 0, 0, fun _ => sampleInfo, fun _ => none, 1000, 1000⟩

/-- An environment in which every SDK call fails with code -1 and leaves the count at 0. -/
def failingSdk : Sdk :=
  ⟨-1, -1, -1, 0, -1, 0, fun _ => sampleInfo, fun _ => none, 1000, 1000⟩

/-- An environment in which the first enumeration call fails with code 5 after writing a
count of 3. -/
def failingCountSdk : Sdk :=
  ⟨0, 0, 5, 3, 0, 3, fun _ => sampleInfo, fun _ => none, 1000, 1000⟩

/-- An environment with two readers in which the detail fetch fails with code 7. -/
def detailFailureSdk : Sdk :=
  ⟨0, 0, 0, 2, 7, 2, fun _ => sampleInfo, fun _ => none, 1000, 1000⟩

/-- An environment with two readers in which both enumeration calls succeed. -/
def twoDeviceSdk : Sdk :=
  ⟨0, 0, 0, 2, 0, 2, fun _ => sampleInfo, fun _ => none, 1000, 1000⟩

/-- An environment with one reader whose name holds the control character U+0001. -/
def controlNameSdk : Sdk :=
  ⟨0, 0, 0, 1, 0, 1, fun _ => ⟨1420, "Reader\x01", "DigitalPersona", "Fingerprint Reader",
    "A1B2", 1466, 10, 1, 2⟩, fun _ => none, 1000, 1000⟩

/-- An environment in which the tick counter advances between its two reads. -/
def tickingSdk : Sdk :=
  ⟨0, 0, 0, 0, 0, 0, fun _ => sampleInfo, fun _ => none, 1000, 1001⟩

/-- An environment in which the first enumeration call reports one reader and the second call
returns 0 after writing a count of 2. -/
def growingCountSdk : Sdk :=
  ⟨0, 0, 0, 1, 0, 2, fun _ => sampleInfo, fun _ => none, 1000, 1000⟩

/-- An environment with two readers in which the construction of the device vector throws. -/
def throwingSdk : Sdk :=
  ⟨0, 0, 0, 2, 0, 2, fun _ => sampleInfo, fun _ => some "bad allocation", 1000, 1000⟩

/-- An environment with one reader whose name holds a line feed and a carriage return. -/
def twoLineNameSdk : Sdk :=
  ⟨0, 0, 0, 1, 0, 1, fun _ => ⟨1420, "Reader\r\nA", "DigitalPersona", "Fingerprint Reader",
    "A1B2", 1466, 10, 1, 2⟩, fun _ => none, 1000, 1000⟩

/-! ## The escaping rules in the words of the specification -/

/-- The seven escaping rules: the double quote, the backslash, backspace, form feed, line
feed, carriage return and tab become a backslash followed by `"`, `\`, `b`, `f`, `n`, `r`,
`t`; every other character is copied. -/
def sevenRules (c : Char) : List Char :=
  if c = '"' then ['\\', '"']
  else if c = '\\' then ['\\', '\\']
  else if c = '\x08' then ['\\', 'b']
  else if c = '\x0c' then ['\\', 'f']
  else if c = '\n' then ['\\', 'n']
  else if c = '\r' then ['\\', 'r']
  else if c = '\t' then ['\\', 't']
  else [c]

/-- A character that one of the seven rules replaces. -/
def isEscaped (c : Char) : Bool :=
  c = '"' || c = '\\' || c = '\x08' || c = '\x0c' || c = '\n' || c = '\r' || c = '\t'

/-- The character that a backslash followed by `e` stands for in escaped text. -/
def escapedChar (e : Char) : Char :=
  if e = 'b' then '\x08' else if e = 'f' then '\x0c' else if e = 'n' then '\n'
  else if e = 'r' then '\r' else if e = 't' then '\t' else e

/-- Reads escaped text back: a backslash and the character after it give the character the
rule replaced, any other character stands for itself. -/
def unescape : List Char → List Char
  | [] => []
  | [c] => [c]
  | c :: e :: rest =>
    if c = '\\' then escapedChar e :: unescape rest else c :: unescape (e :: rest)

/-- A text that holds no line feed and no carriage return. -/
def singleLine (s : String) : Bool :=
  s.data.all (fun c => c != '\n' && c != '\r')

/-- The text `text` is the compact text of the plain value `j`. -/
def Renders (text : String) (j : Json) : Prop :=
  text.data = j.render ∧ j.Plain

/-! ## Basic facts -/

theorem executeCommand_init (sdk : Sdk) : executeCommand sdk "init" = executeInit sdk := by
  simp [executeCommand]

theorem executeCommand_query (sdk : Sdk) :
    executeCommand sdk "query" = executeQuery sdk "query" := by
  simp [executeCommand]

theorem executeCommand_capture (sdk : Sdk) :
    executeCommand sdk "capture" = executeCapture sdk := by
  simp [executeCommand]

theorem executeCommand_cleanup (sdk : Sdk) :
    executeCommand sdk "cleanup" = executeCleanup sdk := by
  simp [executeCommand]

/-! ## The device loop -/

theorem commaSeparated_snoc (xs : List String) (x : String) :
    commaSeparated (xs ++ [x]) = if xs = [] then x else commaSeparated xs ++ "," ++ x := by
  induction xs with
  | nil => simp [commaSeparated]
  | cons a as ih =>
    cases as with
    | nil => simp [commaSeparated]
    | cons b bs =>
      have e : commaSeparated (a :: b :: bs ++ [x]) =
          a ++ "," ++ commaSeparated (b :: bs ++ [x]) := by
        simp [commaSeparated]
      rw [e, ih]
      simp [commaSeparated, String.append_assoc]

theorem deviceEntry_in_bounds (devices : List DPFPDD_DEV_INFO) (response : String) (i : Nat)
    (d : DPFPDD_DEV_INFO) (h : devices[i]? = some d) :
    deviceEntry devices response i =
      some (response ++ (if i = 0 then "" else ",") ++ deviceObject i d) := by
  unfold deviceEntry
  rw [h]
  by_cases hi : i = 0
  · subst hi
    simp [deviceObject, String.ext_iff]
  · have : i > 0 := Nat.pos_of_ne_zero hi
    simp [deviceObject, String.ext_iff, this, hi]

theorem deviceEntry_out_of_bounds (devices : List DPFPDD_DEV_INFO) (response : String) (i : Nat)
    (h : devices.length ≤ i) : deviceEntry devices response i = none := by
  unfold deviceEntry
  rw [List.getElem?_eq_none h]

theorem deviceLoop_in_bounds (infos : Nat → DPFPDD_DEV_INFO) (size : Nat) (response : String) :
    ∀ n, n ≤ size →
      deviceLoop ((List.range size).map infos) n response =
        some (response ++
          commaSeparated ((List.range n).map (fun i => deviceObject i (infos i))))
  | 0, _ => by simp [deviceLoop, commaSeparated, String.ext_iff]
  | n + 1, h => by
    have ih := deviceLoop_in_bounds infos size response n (by omega)
    unfold deviceLoop at ih ⊢
    rw [List.range_succ, List.foldlM_append, ih]
    have hget : ((List.range size).map infos)[n]? = some (infos n) := by
      simp [List.getElem?_map, List.getElem?_range (show n < size by omega)]
    simp only [Option.some_bind, List.foldlM_cons, List.foldlM_nil, Option.bind_eq_bind]
    rw [deviceEntry_in_bounds _ _ _ _ hget]
    simp only [List.map_append, List.map_cons, List.map_nil, commaSeparated_snoc, Option.pure_def,
      Option.bind_some]
    cases n with
    | zero => simp [String.ext_iff, commaSeparated]
    | succ m => simp [String.ext_iff, List.range_succ]


/-! ## Escaped text is read back -/

theorem escapeJsonString_fold (l : List Char) (init : String) :
    l.foldl (fun escaped c => escaped ++ escapeChar c) init =
      init ++ l.foldl (fun escaped c => escaped ++ escapeChar c) "" := by
  induction l generalizing init with
  | nil => simp
  | cons c cs ih =>
    simp only [List.foldl_cons]
    rw [ih, ih ("" ++ escapeChar c)]
    simp [String.append_assoc]

theorem escapeJsonString_nil : escapeJsonString (String.mk []) = "" := rfl

theorem escapeJsonString_cons (c : Char) (cs : List Char) :
    escapeJsonString (String.mk (c :: cs)) = escapeChar c ++ escapeJsonString (String.mk cs) := by
  unfold escapeJsonString
  simp only [List.foldl_cons]
  rw [escapeJsonString_fold]
  simp only [String.empty_append]

theorem readString_escapeChar (c : Char) (hc : escapable c = true) (tail : List Char) :
    readString ((escapeChar c).data ++ tail) = (readString tail).map (fun r => (c :: r.1, r.2)) := by
  unfold escapeChar readString
  split
  all_goals try (simp [readStringFrom]; done)
  next h1 h2 h3 h4 h5 h6 h7 =>
    have hge : ¬ c.toNat < 32 := by
      simp only [escapable, Bool.or_eq_true, decide_eq_true_eq] at hc
      rcases hc with ((((hc | hc) | hc) | hc) | hc) | hc
      · omega
      all_goals exact absurd hc (by assumption)
    have h1' : c ≠ '"' := h1
    have h2' : c ≠ '\\' := h2
    simp [readStringFrom, String.singleton, h1', h2', hge]

theorem readString_escapeJsonString (s : List Char) (hs : ∀ c ∈ s, escapable c = true)
    (rest : List Char) :
    readString ((escapeJsonString (String.mk s)).data ++ '"' :: rest) = some (s, rest) := by
  induction s with
  | nil => simp [escapeJsonString_nil, readString, readStringFrom]
  | cons c cs ih =>
    rw [escapeJsonString_cons, String.data_append, List.append_assoc,
      readString_escapeChar c (hs c (List.mem_cons_self _ _)),
      ih (fun d hd => hs d (List.mem_cons_of_mem _ hd))]
    rfl


/-! ## Decimal texts -/

theorem digitChar_spec : ∀ k, k < 10 →
    isDigit (Nat.digitChar k) = true ∧ (Nat.digitChar k).toNat - 48 = k ∧
      (Nat.digitChar k = '0' → k = 0) := by
  decide

theorem decimalValue_snoc (l : List Char) (d : Char) :
    decimalValue (l ++ [d]) = decimalValue l * 10 + (d.toNat - 48) := by
  simp [decimalValue, List.foldl_append]

theorem toDigitsCore_spec : ∀ fuel n ds, n < fuel →
    ∃ l, Nat.toDigitsCore 10 fuel n ds = l ++ ds ∧ l ≠ [] ∧ (∀ c ∈ l, isDigit c = true) ∧
      decimalValue l = n ∧ (l.head? = some '0' → l = ['0'])
  | 0, n, ds, h => absurd h (Nat.not_lt_zero n)
  | fuel + 1, n, ds, h => by
    have hd := digitChar_spec (n % 10) (Nat.mod_lt n (by decide))
    unfold Nat.toDigitsCore
    by_cases hq : n / 10 = 0
    · have hn : n % 10 = n := Nat.mod_eq_of_lt (by omega)
      refine ⟨[Nat.digitChar (n % 10)], by simp [hq], by simp, by simpa using hd.1, ?_, ?_⟩
      · simpa [decimalValue, hn] using hd.2.1
      · intro h0
        simp at h0
        simp [h0]
    · obtain ⟨l, hl, hne, hdig, hval, hhead⟩ :=
        toDigitsCore_spec fuel (n / 10) (Nat.digitChar (n % 10) :: ds) (by omega)
      refine ⟨l ++ [Nat.digitChar (n % 10)], by simp [hq, hl], by simp, ?_, ?_, ?_⟩
      · intro c hc
        rcases List.mem_append.mp hc with hc | hc
        · exact hdig c hc
        · simp at hc
          rw [hc]
          exact hd.1
      · rw [decimalValue_snoc, hval, hd.2.1]
        omega
      · intro h0
        cases l with
        | nil => exact absurd rfl hne
        | cons a as =>
          have ha : a = '0' := by simpa using h0
          have hl0 := hhead (by simp [ha])
          rw [hl0] at hval
          simp [decimalValue] at hval
          omega

/-- The decimal digits of a natural number: at least one digit, digits only, no leading zero
except for 0 itself, and they denote the number. -/
theorem toDigits_spec (n : Nat) :
    Nat.toDigits 10 n ≠ [] ∧ (∀ c ∈ Nat.toDigits 10 n, isDigit c = true) ∧
      decimalValue (Nat.toDigits 10 n) = n ∧
      ((Nat.toDigits 10 n).head? = some '0' → Nat.toDigits 10 n = ['0']) := by
  obtain ⟨l, hl, h⟩ := toDigitsCore_spec (n + 1) n [] (Nat.lt_succ_self n)
  have e : Nat.toDigits 10 n = l := by simpa [Nat.toDigits] using hl
  rw [e]
  exact h

theorem to_string_ofNat (n : Nat) : (to_string (n : Int)).data = Nat.toDigits 10 n := rfl

theorem to_string_negSucc (n : Nat) :
    (to_string (Int.negSucc n)).data = '-' :: Nat.toDigits 10 (n + 1) := rfl


theorem takeDigits_append (l rest : List Char) (hl : ∀ c ∈ l, isDigit c = true)
    (hr : endsNumber rest = true) : takeDigits (l ++ rest) = (l, rest) := by
  induction l with
  | nil =>
    cases rest with
    | nil => rfl
    | cons c cs =>
      have : isDigit c = false := by
        simp only [endsNumber, Bool.not_eq_true', Bool.or_eq_false_iff] at hr
        exact hr.1.1.1
      simp [takeDigits, this]
  | cons d ds ih =>
    have hd := hl d (List.mem_cons_self _ _)
    simp [takeDigits, hd, ih (fun c hc => hl c (List.mem_cons_of_mem _ hc))]

theorem readFraction_none (rest : List Char) (hr : endsNumber rest = true) :
    readFraction rest = some ([], rest) := by
  cases rest with
  | nil => rfl
  | cons c cs =>
    have : c ≠ '.' := by
      intro h
      simp [endsNumber, h] at hr
    simp [readFraction, this]

theorem readExponent_none (rest : List Char) (hr : endsNumber rest = true) :
    readExponent rest = some ([], rest) := by
  cases rest with
  | nil => rfl
  | cons c cs =>
    have h1 : c ≠ 'e' := by
      intro h
      simp [endsNumber, h] at hr
    have h2 : c ≠ 'E' := by
      intro h
      simp [endsNumber, h] at hr
    simp [readExponent, h1, h2]

theorem readUnsigned_digits (l rest : List Char) (hne : l ≠ [])
    (hl : ∀ c ∈ l, isDigit c = true) (hhead : l.head? = some '0' → l = ['0'])
    (hr : endsNumber rest = true) : readUnsigned (l ++ rest) = some (l, rest) := by
  cases l with
  | nil => exact absurd rfl hne
  | cons d ds =>
    have hd := hl d (List.mem_cons_self _ _)
    have hint : readIntPart (d :: ds ++ rest) = some (d :: ds, rest) := by
      by_cases h0 : d = '0'
      · have := hhead (by simp [h0])
        simp only [List.cons.injEq] at this
        simp [readIntPart, h0, this.2]
      · simp [readIntPart, h0, hd,
          takeDigits_append ds rest (fun c hc => hl c (List.mem_cons_of_mem _ hc)) hr]
    rw [List.cons_append] at hint
    simp [readUnsigned, hint, readFraction_none rest hr, readExponent_none rest hr]

theorem isDigit_ne_minus (c : Char) (h : isDigit c = true) : c ≠ '-' := by
  intro hc
  rw [hc] at h
  exact absurd h (by decide)

/-- The decimal text of an integer, followed by a text at which a number ends, is read back
as one number with that text as its lexeme. -/
theorem readNumber_to_string (n : Int) (rest : List Char) (hr : endsNumber rest = true) :
    readNumber ((to_string n).data ++ rest) = some ((to_string n).data, rest) := by
  cases n with
  | ofNat m =>
    obtain ⟨hne, hdig, -, hhead⟩ := toDigits_spec m
    have e : (to_string (Int.ofNat m)).data = Nat.toDigits 10 m := rfl
    rw [e]
    have hu := readUnsigned_digits _ rest hne hdig hhead hr
    cases hl : Nat.toDigits 10 m with
    | nil => exact absurd hl hne
    | cons d ds =>
      rw [hl] at hu hdig
      have := isDigit_ne_minus d (hdig d (List.mem_cons_self _ _))
      simp only [List.cons_append] at hu ⊢
      simp [readNumber, this, hu]
  | negSucc m =>
    obtain ⟨hne, hdig, -, hhead⟩ := toDigits_spec (m + 1)
    rw [to_string_negSucc]
    simp [readNumber, readUnsigned_digits _ rest hne hdig hhead hr]

/-- Reading the decimal text of an integer as an integer gives the integer back. -/
theorem readInt_to_string (n : Int) : readInt (to_string n) = some n := by
  cases n with
  | ofNat m =>
    obtain ⟨hne, hdig, hval, -⟩ := toDigits_spec m
    have e : (to_string (Int.ofNat m)).data = Nat.toDigits 10 m := rfl
    unfold readInt
    rw [e]
    cases hl : Nat.toDigits 10 m with
    | nil => exact absurd hl hne
    | cons d ds =>
      rw [hl] at hdig hval
      have := isDigit_ne_minus d (hdig d (List.mem_cons_self _ _))
      have hall : (d :: ds).all isDigit = true := List.all_eq_true.mpr hdig
      simp only [this, if_false, hall, if_true, hval]
      rfl
  | negSucc m =>
    obtain ⟨hne, hdig, hval, -⟩ := toDigits_spec (m + 1)
    unfold readInt
    rw [to_string_negSucc]
    have hall : (Nat.toDigits 10 (m + 1)).all isDigit = true := List.all_eq_true.mpr hdig
    simp only [if_true, hne, ne_eq, not_false_eq_true, hall, and_self, hval]
    rfl


/-! ## Compact texts are read back -/

theorem skipWhitespace_cons (c : Char) (cs : List Char) (h : isWhitespace c = false) :
    skipWhitespace (c :: cs) = c :: cs := by
  simp [skipWhitespace, h]

theorem to_string_head (n : Int) :
    ∃ c cs, (to_string n).data = c :: cs ∧ (c = '-' ∨ isDigit c = true) := by
  cases n with
  | ofNat m =>
    obtain ⟨hne, hdig, -, -⟩ := toDigits_spec m
    have e : (to_string (Int.ofNat m)).data = Nat.toDigits 10 m := rfl
    rw [e]
    cases hl : Nat.toDigits 10 m with
    | nil => exact absurd hl hne
    | cons d ds =>
      rw [hl] at hdig
      exact ⟨d, ds, rfl, Or.inr (hdig d (List.mem_cons_self _ _))⟩
  | negSucc m => exact ⟨'-', _, to_string_negSucc m, Or.inl rfl⟩

theorem number_head (c : Char) (h : c = '-' ∨ isDigit c = true) :
    isWhitespace c = false ∧ c ≠ '"' ∧ c ≠ '[' ∧ c ≠ '\x7b' ∧ c ≠ 'n' ∧ c ≠ 't' ∧ c ≠ 'f' ∧
      c ≠ ']' ∧ c ≠ '\x7d' := by
  rcases h with h | h
  · subst h
    decide
  · have hb : 48 ≤ c.toNat ∧ c.toNat ≤ 57 := by
      simp only [isDigit, decide_eq_true_eq] at h
      exact ⟨h.1, h.2⟩
    refine ⟨?_, ?_, ?_, ?_, ?_, ?_, ?_, ?_, ?_⟩
    · cases hw : isWhitespace c
      · rfl
      · simp only [isWhitespace, Bool.or_eq_true, decide_eq_true_eq] at hw
        rcases hw with ((hw | hw) | hw) | hw <;> (subst hw; revert hb; decide)
    all_goals (intro hc; subst hc; revert hb; decide)

/-- The first character of a rendered plain value: not whitespace and not a closing bracket
or brace. -/
theorem render_head (j : Json) (hp : j.Plain) :
    ∃ c cs, j.render = c :: cs ∧ isWhitespace c = false ∧ c ≠ ']' ∧ c ≠ '\x7d' := by
  cases j with
  | null => exact ⟨'n', _, rfl, by decide, by decide, by decide⟩
  | bool b =>
    cases b
    · exact ⟨'f', _, rfl, by decide, by decide, by decide⟩
    · exact ⟨'t', _, rfl, by decide, by decide, by decide⟩
  | num lexeme =>
    obtain ⟨n, hn⟩ : ∃ n : Int, lexeme = to_string n := by simpa [Json.Plain] using hp
    obtain ⟨c, cs, hc, hhead⟩ := to_string_head n
    have := number_head c hhead
    exact ⟨c, cs, by simp [Json.render, hn, hc], this.1, this.2.2.2.2.2.2.2.1, this.2.2.2.2.2.2.2.2⟩
  | str s => exact ⟨'"', _, rfl, by decide, by decide, by decide⟩
  | arr items => exact ⟨'[', renderItems items, by rw [Json.render], by decide, by decide, by decide⟩
  | obj members =>
    exact ⟨'\x7b', renderMembers members, by rw [Json.render], by decide, by decide, by decide⟩


theorem readValue_scalar (fuel : Nat) (j : Json) (rest : List Char) (hp : j.Plain)
    (hr : endsNumber rest = true)
    (hj : (∀ items, j ≠ Json.arr items) ∧ (∀ members, j ≠ Json.obj members)) :
    readValue (fuel + 1) (j.render ++ rest) = some (j, rest) := by
  cases j with
  | null => simp [readValue, Json.render, skipWhitespace, isWhitespace, readWord]
  | bool b =>
    cases b <;> simp [readValue, Json.render, skipWhitespace, isWhitespace, readWord]
  | num lexeme =>
    obtain ⟨n, hn⟩ : ∃ n : Int, lexeme = to_string n := by simpa [Json.Plain] using hp
    subst hn
    obtain ⟨c, cs, hc, hhead⟩ := to_string_head n
    obtain ⟨h1, h2, h3, h4, h5, h6, h7, -, -⟩ := number_head c hhead
    have hnum := readNumber_to_string n rest hr
    simp only [Json.render]
    rw [hc] at hnum ⊢
    simp only [List.cons_append] at hnum ⊢
    simp [readValue, skipWhitespace_cons _ _ h1, h2, h3, h4, h5, h6, h7, hnum]
    exact String.ext hc.symm
  | str s =>
    have := readString_escapeJsonString s.data (by simpa [Json.Plain] using hp) rest
    simp [readValue, Json.render, skipWhitespace, isWhitespace, this]
  | arr items => exact absurd rfl (hj.1 items)
  | obj members => exact absurd rfl (hj.2 members)


theorem endsNumber_cons (c : Char) (rest : List Char) (h : endsNumber [c] = true) :
    endsNumber (c :: rest) = true := h

theorem readValue_arr (fuel : Nat) (c : Char) (tail : List Char)
    (hw : isWhitespace c = false) (hb : c ≠ ']') :
    readValue (fuel + 1) ('[' :: c :: tail) =
      (readItems fuel (c :: tail)).map (fun r => (Json.arr r.1, r.2)) := by
  have e1 : skipWhitespace ('[' :: c :: tail) = '[' :: c :: tail :=
    skipWhitespace_cons _ _ (by decide)
  simp [readValue, e1, skipWhitespace_cons _ _ hw, hb]

theorem readValue_obj (fuel : Nat) (tail : List Char) :
    readValue (fuel + 1) ('\x7b' :: '"' :: tail) =
      (readMembers fuel ('"' :: tail)).map (fun r => (Json.obj r.1, r.2)) := by
  have e1 : skipWhitespace ('\x7b' :: '"' :: tail) = '\x7b' :: '"' :: tail :=
    skipWhitespace_cons _ _ (by decide)
  have e2 : skipWhitespace ('"' :: tail) = '"' :: tail := skipWhitespace_cons _ _ (by decide)
  simp [readValue, e1, e2]

theorem readItems_step (fuel : Nat) (v : Json) (cs rest : List Char) (c : Char)
    (hv : readValue fuel cs = some (v, c :: rest)) (hw : isWhitespace c = false) :
    readItems (fuel + 1) cs =
      if c = ',' then (readItems fuel rest).map (fun r => (v :: r.1, r.2))
      else if c = ']' then some ([v], rest) else none := by
  simp [readItems, hv, skipWhitespace_cons _ _ hw]

theorem readMembers_step (fuel : Nat) (k : List Char) (v : Json) (cs rest tail : List Char)
    (c : Char) (hk : readString cs = some (k, ':' :: rest))
    (hv : readValue fuel rest = some (v, c :: tail)) (hw : isWhitespace c = false) :
    readMembers (fuel + 1) ('"' :: cs) =
      if c = ',' then (readMembers fuel tail).map (fun r => ((String.mk k, v) :: r.1, r.2))
      else if c = '\x7d' then some ([(String.mk k, v)], tail) else none := by
  have e1 : skipWhitespace ('"' :: cs) = '"' :: cs := skipWhitespace_cons _ _ (by decide)
  have e2 : skipWhitespace (':' :: rest) = ':' :: rest := skipWhitespace_cons _ _ (by decide)
  simp [readMembers, e1, e2, hk, hv, skipWhitespace_cons _ _ hw]

/-- Reading back the compact text of a plain value, with fuel for its nested reads. -/
theorem read_render : ∀ fuel : Nat,
    (∀ (j : Json) (rest : List Char), j.Plain → j.reads ≤ fuel → endsNumber rest = true →
      readValue fuel (j.render ++ rest) = some (j, rest)) ∧
    (∀ (items : List Json) (rest : List Char), items ≠ [] → plainItems items →
      readsItems items ≤ fuel → readItems fuel (renderItems items ++ rest) = some (items, rest)) ∧
    (∀ (members : List (String × Json)) (rest : List Char), members ≠ [] →
      plainMembers members → readsMembers members ≤ fuel →
      readMembers fuel (renderMembers members ++ rest) = some (members, rest))
  | 0 => by
    refine ⟨?_, ?_, ?_⟩
    · intro j rest _ h
      cases j <;> simp [Json.reads] at h
    · intro items rest hne _ h
      cases items with
      | nil => exact absurd rfl hne
      | cons v vs => simp [readsItems] at h
    · intro members rest hne _ h
      cases members with
      | nil => exact absurd rfl hne
      | cons m ms =>
        obtain ⟨k, v⟩ := m
        simp [readsMembers] at h
  | fuel + 1 => by
    obtain ⟨ihv, ihi, ihm⟩ := read_render fuel
    refine ⟨?_, ?_, ?_⟩
    · intro j rest hp hreads hr
      cases j with
      | arr items =>
        cases items with
        | nil => simp [readValue, Json.render, renderItems, skipWhitespace, isWhitespace]
        | cons v vs =>
          have hpi : plainItems (v :: vs) := by simpa [Json.Plain] using hp
          have hri : readsItems (v :: vs) ≤ fuel := by
            simp only [Json.reads] at hreads
            omega
          have hread := ihi (v :: vs) rest (by simp) hpi hri
          obtain ⟨c, cs, hc, hw, hb, -⟩ := render_head v hpi.1
          have hhead : ∃ tail, renderItems (v :: vs) ++ rest = c :: tail := by
            cases vs <;> simp [renderItems, hc]
          obtain ⟨tail, htail⟩ := hhead
          rw [htail] at hread
          simp only [Json.render, List.cons_append, htail]
          rw [readValue_arr fuel c tail hw hb, hread]
          rfl
      | obj members =>
        cases members with
        | nil => simp [readValue, Json.render, renderMembers, skipWhitespace, isWhitespace]
        | cons m ms =>
          obtain ⟨k, v⟩ := m
          have hpm : plainMembers ((k, v) :: ms) := by simpa [Json.Plain] using hp
          have hrm : readsMembers ((k, v) :: ms) ≤ fuel := by
            simp only [Json.reads] at hreads
            omega
          have hread := ihm ((k, v) :: ms) rest (by simp) hpm hrm
          have hhead : ∃ tail, renderMembers ((k, v) :: ms) ++ rest = '"' :: tail := by
            cases ms <;> simp [renderMembers]
          obtain ⟨tail, htail⟩ := hhead
          rw [htail] at hread
          simp only [Json.render, List.cons_append, htail]
          rw [readValue_obj fuel tail, hread]
          rfl
      | null => exact readValue_scalar fuel _ rest hp hr ⟨by simp, by simp⟩
      | bool b => exact readValue_scalar fuel _ rest hp hr ⟨by simp, by simp⟩
      | num lexeme => exact readValue_scalar fuel _ rest hp hr ⟨by simp, by simp⟩
      | str s => exact readValue_scalar fuel _ rest hp hr ⟨by simp, by simp⟩
    · intro items rest hne hp hreads
      cases items with
      | nil => exact absurd rfl hne
      | cons v vs =>
        have hrv : v.reads ≤ fuel := by
          simp only [readsItems] at hreads
          omega
        have hrs : readsItems vs ≤ fuel := by
          simp only [readsItems] at hreads
          omega
        cases vs with
        | nil =>
          have h1 := ihv v (']' :: rest) hp.1 hrv (endsNumber_cons _ _ (by decide))
          have e : renderItems [v] ++ rest = v.render ++ ']' :: rest := by simp [renderItems]
          rw [e, readItems_step fuel v _ rest ']' h1 (by decide)]
          simp
        | cons w ws =>
          have h1 := ihv v (',' :: (renderItems (w :: ws) ++ rest)) hp.1 hrv
            (endsNumber_cons _ _ (by decide))
          have h2 := ihi (w :: ws) rest (by simp) hp.2 hrs
          have e : renderItems (v :: w :: ws) ++ rest =
              v.render ++ ',' :: (renderItems (w :: ws) ++ rest) := by
            simp [renderItems]
          rw [e, readItems_step fuel v _ _ ',' h1 (by decide), h2]
          simp
    · intro members rest hne hp hreads
      cases members with
      | nil => exact absurd rfl hne
      | cons m ms =>
        obtain ⟨k, v⟩ := m
        have hrv : v.reads ≤ fuel := by
          simp only [readsMembers] at hreads
          omega
        have hrs : readsMembers ms ≤ fuel := by
          simp only [readsMembers] at hreads
          omega
        have hk := hp.1
        cases ms with
        | nil =>
          have h0 := readString_escapeJsonString k.data hk
            (':' :: (Json.render v ++ '\x7d' :: rest))
          have h1 := ihv v ('\x7d' :: rest) hp.2.1 hrv (endsNumber_cons _ _ (by decide))
          have e : renderMembers [(k, v)] ++ rest =
              '"' :: ((escapeJsonString k).data ++ '"' :: ':' :: (v.render ++ '\x7d' :: rest)) := by
            simp [renderMembers]
          rw [e, readMembers_step fuel k.data v _ _ rest '\x7d' h0 h1 (by decide)]
          simp
        | cons n ns =>
          have h0 := readString_escapeJsonString k.data hk
            (':' :: (Json.render v ++ ',' :: (renderMembers (n :: ns) ++ rest)))
          have h1 := ihv v (',' :: (renderMembers (n :: ns) ++ rest)) hp.2.1 hrv
            (endsNumber_cons _ _ (by decide))
          have h2 := ihm (n :: ns) rest (by simp) hp.2.2 hrs
          have e : renderMembers ((k, v) :: n :: ns) ++ rest =
              '"' :: ((escapeJsonString k).data ++ '"' :: ':' ::
                (v.render ++ ',' :: (renderMembers (n :: ns) ++ rest))) := by
            simp [renderMembers]
          rw [e, readMembers_step fuel k.data v _ _ _ ',' h0 h1 (by decide), h2]
          simp


mutual
theorem reads_le_length : ∀ j : Json, j.Plain → j.reads ≤ j.render.length
  | Json.null, _ => by simp [Json.reads, Json.render]
  | Json.bool true, _ => by simp [Json.reads, Json.render]
  | Json.bool false, _ => by simp [Json.reads, Json.render]
  | Json.num lexeme, hp => by
    obtain ⟨n, hn⟩ : ∃ n : Int, lexeme = to_string n := by simpa [Json.Plain] using hp
    obtain ⟨c, cs, hc, -⟩ := to_string_head n
    simp [Json.reads, Json.render, hn, hc]
  | Json.str s, _ => by simp [Json.reads, Json.render]
  | Json.arr items, hp => by
    have := readsItems_le_length items (by simpa [Json.Plain] using hp)
    simp only [Json.reads, Json.render, List.length_cons]
    omega
  | Json.obj members, hp => by
    have := readsMembers_le_length members (by simpa [Json.Plain] using hp)
    simp only [Json.reads, Json.render, List.length_cons]
    omega
theorem readsItems_le_length : ∀ items : List Json, plainItems items →
    readsItems items ≤ (renderItems items).length
  | [], _ => by simp [readsItems]
  | [v], hp => by
    have := reads_le_length v hp.1
    simp only [readsItems, renderItems, List.length_append, List.length_cons, List.length_nil]
    omega
  | v :: w :: ws, hp => by
    have h1 := reads_le_length v hp.1
    have h2 := readsItems_le_length (w :: ws) hp.2
    simp only [readsItems, renderItems, List.length_append, List.length_cons] at h2 ⊢
    omega
theorem readsMembers_le_length : ∀ members : List (String × Json), plainMembers members →
    readsMembers members ≤ (renderMembers members).length
  | [], _ => by simp [readsMembers]
  | [(k, v)], hp => by
    have := reads_le_length v hp.2.1
    simp only [readsMembers, renderMembers, List.length_append, List.length_cons,
      List.length_nil]
    omega
  | (k, v) :: m :: ms, hp => by
    have h1 := reads_le_length v hp.2.1
    have h2 := readsMembers_le_length (m :: ms) hp.2.2
    simp only [readsMembers, renderMembers, List.length_append, List.length_cons] at h2 ⊢
    omega
end

/-- A text that is the compact rendering of a plain value parses to that value. -/
theorem parseJson_render (j : Json) (text : String) (hp : j.Plain)
    (ht : text.data = j.render) : parseJson text = some j := by
  have hfuel : j.reads ≤ text.length + 1 := by
    have := reads_le_length j hp
    rw [← ht] at this
    exact Nat.le_succ_of_le this
  have h := (read_render (text.length + 1)).1 j [] hp hfuel rfl
  rw [List.append_nil, ← ht] at h
  simp [parseJson, h, skipWhitespace]


theorem plainText (s : String) (h : s.data.all escapable = true) :
    ∀ c ∈ s.data, escapable c = true := List.all_eq_true.mp h

/-! ## The arms of `query` -/

theorem executeQuery_zero_count (sdk : Sdk) (hcnt : sdk.query1_cnt = 0) :
    executeQuery sdk "query" =
      ⟨[SdkCall.dpfpdd_query_devices 0 none sdk.query1_result],
        some ("\x7b\"action\":\"query\",\"status\":\"success\",\"devices\":[],\"deviceCount\":0,\"message\":\"No DigitalPersona devices found\",\"result_code\":"
          ++ to_string sdk.query1_result ++ "\x7d")⟩ := by
  simp [executeQuery, hcnt, String.ext_iff]

theorem executeQuery_first_fails (sdk : Sdk) (hfail : sdk.query1_result ≠ 0)
    (hcnt : 0 < sdk.query1_cnt) :
    executeQuery sdk "query" =
      ⟨[SdkCall.dpfpdd_query_devices 0 none sdk.query1_result],
        some ("\x7b\"action\":\"query\",\"status\":\"error\",\"message\":\"Failed to query devices\",\"result_code\":"
          ++ to_string sdk.query1_result ++ "\x7d")⟩ := by
  have hne : sdk.query1_cnt ≠ 0 := Nat.pos_iff_ne_zero.mp hcnt
  simp [executeQuery, hfail, hne, String.ext_iff]

theorem executeQuery_throws (sdk : Sdk) (what : String) (hfirst : sdk.query1_result = 0)
    (hcnt : 0 < sdk.query1_cnt) (halloc : sdk.vector_alloc sdk.query1_cnt = some what) :
    executeQuery sdk "query" =
      ⟨[SdkCall.dpfpdd_query_devices 0 none sdk.query1_result],
        some (catchResponse "query" what)⟩ := by
  simp [executeQuery, hfirst, hcnt, halloc]

theorem executeQuery_detail_fails (sdk : Sdk) (hfirst : sdk.query1_result = 0)
    (hcnt : 0 < sdk.query1_cnt) (halloc : sdk.vector_alloc sdk.query1_cnt = none)
    (hsecond : sdk.query2_result ≠ 0) :
    executeQuery sdk "query" =
      ⟨[SdkCall.dpfpdd_query_devices 0 none sdk.query1_result,
          SdkCall.dpfpdd_query_devices sdk.query1_cnt (some sdk.query1_cnt) sdk.query2_result],
        some ("\x7b\"action\":\"query\",\"status\":\"error\",\"message\":\"Failed to query device details\",\"result_code\":"
          ++ to_string sdk.query2_result ++ "\x7d")⟩ := by
  simp [executeQuery, hfirst, hcnt, halloc, hsecond, String.ext_iff]

theorem executeQuery_lists (sdk : Sdk) (hfirst : sdk.query1_result = 0)
    (hcnt : 0 < sdk.query1_cnt) (halloc : sdk.vector_alloc sdk.query1_cnt = none)
    (hsecond : sdk.query2_result = 0) (hle : sdk.query2_cnt ≤ sdk.query1_cnt) :
    executeQuery sdk "query" =
      ⟨[SdkCall.dpfpdd_query_devices 0 none sdk.query1_result,
          SdkCall.dpfpdd_query_devices sdk.query1_cnt (some sdk.query1_cnt) sdk.query2_result],
        some ("\x7b\"action\":\"query\",\"status\":\"success\",\"devices\":["
          ++ commaSeparated
            ((List.range sdk.query2_cnt).map (fun i => deviceObject i (sdk.query2_infos i)))
          ++ "],\"deviceCount\":" ++ to_string sdk.query2_cnt
          ++ ",\"message\":\"Device enumeration completed\",\"result_code\":"
          ++ to_string sdk.query2_result ++ "\x7d")⟩ := by
  have hloop := deviceLoop_in_bounds sdk.query2_infos sdk.query1_cnt
    ("\x7b" ++ "\"action\":\"query\"," ++ "\"status\":\"success\"," ++ "\"devices\":[")
    sdk.query2_cnt hle
  simp only [executeQuery, hfirst, hcnt, halloc, hsecond, true_and, if_true, hloop, and_self]
  simp [String.ext_iff]

theorem deviceLoop_out_of_bounds (infos : Nat → DPFPDD_DEV_INFO) (size n : Nat)
    (response : String) (h : size < n) :
    deviceLoop ((List.range size).map infos) n response = none := by
  obtain ⟨k, rfl⟩ : ∃ k, n = (size + 1) + k := ⟨n - (size + 1), by omega⟩
  have ih := deviceLoop_in_bounds infos size response size (Nat.le_refl _)
  unfold deviceLoop at ih ⊢
  rw [List.range_add, List.foldlM_append, List.range_succ, List.foldlM_append, ih]
  have hout := deviceEntry_out_of_bounds ((List.range size).map infos)
    (response ++ commaSeparated ((List.range size).map (fun i => deviceObject i (infos i)))) size
    (by simp)
  simp [hout]

theorem executeQuery_out_of_bounds (sdk : Sdk) (hfirst : sdk.query1_result = 0)
    (hcnt : 0 < sdk.query1_cnt) (halloc : sdk.vector_alloc sdk.query1_cnt = none)
    (hsecond : sdk.query2_result = 0) (hgt : sdk.query1_cnt < sdk.query2_cnt) :
    executeQuery sdk "query" =
      ⟨[SdkCall.dpfpdd_query_devices 0 none sdk.query1_result,
          SdkCall.dpfpdd_query_devices sdk.query1_cnt (some sdk.query1_cnt) sdk.query2_result],
        none⟩ := by
  have hloop := deviceLoop_out_of_bounds sdk.query2_infos sdk.query1_cnt sdk.query2_cnt
    ("\x7b" ++ "\"action\":\"query\"," ++ "\"status\":\"success\"," ++ "\"devices\":[") hgt
  simp only [executeQuery, hfirst, hcnt, halloc, hsecond, true_and, if_true, hloop, and_self]

/-! ## The device list as JSON -/

theorem deviceObject_render (i : Nat) (d : DPFPDD_DEV_INFO) :
    (deviceObject i d).data = (deviceJson i d).render := by
  simp only [deviceObject, deviceJson, Json.render, renderMembers, String.data_append,
    (by decide : escapeJsonString "id" = "id"), (by decide : escapeJsonString "name" = "name"),
    (by decide : escapeJsonString "vendor_name" = "vendor_name"),
    (by decide : escapeJsonString "product_name" = "product_name"),
    (by decide : escapeJsonString "serial_number" = "serial_number"),
    (by decide : escapeJsonString "model" = "model"),
    (by decide : escapeJsonString "connected" = "connected")]
  simp

theorem deviceJson_plain (i : Nat) (d : DPFPDD_DEV_INFO) (h : plainInfo d) :
    (deviceJson i d).Plain :=
  ⟨plainText _ (by decide), ⟨_, rfl⟩, plainText _ (by decide), h.1, plainText _ (by decide),
    h.2.1, plainText _ (by decide), h.2.2.1, plainText _ (by decide), h.2.2.2,
    plainText _ (by decide), h.2.2.1, plainText _ (by decide), trivial, trivial⟩

theorem commaSeparated_render (texts : List String) (values : List Json)
    (h : List.Forall₂ (fun t v => t.data = Json.render v) texts values) :
    (commaSeparated texts).data ++ [']'] = renderItems values := by
  induction h with
  | nil => rfl
  | cons hx hrest ih =>
    cases hrest with
    | nil => simp [commaSeparated, renderItems, hx]
    | cons hy hrest' =>
      simp only [commaSeparated, renderItems, String.data_append, List.append_assoc] at ih ⊢
      rw [ih, hx]
      rfl

theorem sampleInfo_plain : plainInfo sampleInfo :=
  ⟨plainText sampleInfo.name (by decide), plainText sampleInfo.vendor_name (by decide),
    plainText sampleInfo.product_name (by decide), plainText sampleInfo.serial_num (by decide)⟩

theorem plainItems_of_forall (values : List Json) (h : ∀ v ∈ values, v.Plain) :
    plainItems values := by
  induction values with
  | nil => trivial
  | cons v vs ih =>
    exact ⟨h v (List.mem_cons_self _ _), ih (fun w hw => h w (List.mem_cons_of_mem _ hw))⟩

/-- When every listed record holds only characters that `escapeJsonString` handles, the
device-list response of `query` is valid JSON: it parses to the object with the `devices`
array of the serialized records in order. -/
theorem query_list_parses (infos : Nat → DPFPDD_DEV_INFO) (n : Nat) (result : Int)
    (hplain : ∀ i, i < n → plainInfo (infos i)) :
    parseJson ("\x7b\"action\":\"query\",\"status\":\"success\",\"devices\":["
        ++ commaSeparated ((List.range n).map (fun i => deviceObject i (infos i)))
        ++ "],\"deviceCount\":" ++ to_string n
        ++ ",\"message\":\"Device enumeration completed\",\"result_code\":"
        ++ to_string result ++ "\x7d") =
      some (Json.obj [("action", Json.str "query"), ("status", Json.str "success"),
        ("devices", Json.arr ((List.range n).map (fun i => deviceJson i (infos i)))),
        ("deviceCount", Json.num (to_string n)),
        ("message", Json.str "Device enumeration completed"),
        ("result_code", Json.num (to_string result))]) := by
  have hitems : (commaSeparated ((List.range n).map (fun i => deviceObject i (infos i)))).data
      ++ [']'] = renderItems ((List.range n).map (fun i => deviceJson i (infos i))) := by
    apply commaSeparated_render
    rw [List.forall₂_map_left_iff, List.forall₂_map_right_iff]
    exact List.forall₂_same.mpr (fun i _ => deviceObject_render i (infos i))
  apply parseJson_render
  · refine ⟨plainText _ (by decide), plainText _ (by decide), plainText _ (by decide),
      plainText _ (by decide), plainText _ (by decide), ?_, plainText _ (by decide),
      ⟨_, rfl⟩, plainText _ (by decide), plainText _ (by decide), plainText _ (by decide),
      ⟨_, rfl⟩, trivial⟩
    apply plainItems_of_forall
    intro v hv
    obtain ⟨i, hi, rfl⟩ := List.mem_map.mp hv
    exact deviceJson_plain i (infos i) (hplain i (List.mem_range.mp hi))
  · simp only [Json.render, renderMembers, String.data_append, ← hitems,
      (by decide : escapeJsonString "action" = "action"),
      (by decide : escapeJsonString "query" = "query"),
      (by decide : escapeJsonString "status" = "status"),
      (by decide : escapeJsonString "success" = "success"),
      (by decide : escapeJsonString "devices" = "devices"),
      (by decide : escapeJsonString "deviceCount" = "deviceCount"),
      (by decide : escapeJsonString "message" = "message"),
      (by decide : escapeJsonString "Device enumeration completed" =
        "Device enumeration completed"),
      (by decide : escapeJsonString "result_code" = "result_code")]
    simp

/-! ## C1: escaping and JSON string literals -/

/-- C1 fails on the code: `escapeJsonString` copies the control character U+0001 unchanged,
and the quoted result is not a JSON string literal, so decoding it does not yield the input. -/
theorem escapeJsonString_control_not_decodable :
    escapeJsonString "\x01" = "\x01" ∧
      decodeJsonString ("\"" ++ escapeJsonString "\x01" ++ "\"") = none ∧
      decodeJsonString ("\"" ++ escapeJsonString "a\x1fb" ++ "\"") ≠ some "a\x1fb" := by
  decide

/-! ## C2: unknown commands -/

/-- C2: a command that is none of `init`, `query`, `capture`, `cleanup` (compared exactly)
makes no SDK call and returns the `unknown` error object with the escaped command in its
message; for `foo` that is the literal text of the specification. -/
theorem executeCommand_unknown (sdk : Sdk) (c : String)
    (hinit : c ≠ "init") (hquery : c ≠ "query") (hcapture : c ≠ "capture")
    (hcleanup : c ≠ "cleanup") :
    executeCommand sdk c =
        ⟨[], some ("\x7b\"action\":\"unknown\",\"status\":\"error\",\"message\":\"Unknown command: "
          ++ escapeJsonString c ++ "\"\x7d")⟩ ∧
      executeCommand sdk "foo" =
        ⟨[], some "\x7b\"action\":\"unknown\",\"status\":\"error\",\"message\":\"Unknown command: foo\"\x7d"⟩ := by
  constructor
  · simp only [executeCommand, hinit, hquery, hcapture, hcleanup, if_false, executeUnknown]
    simp [String.ext_iff]
  · simp only [executeCommand, executeUnknown]
    simp [String.ext_iff]
    decide

/-- Witness for C2: `Init` differs from `init` by case only and is an unknown command. -/
theorem executeCommand_unknown_witness :
    executeCommand noDeviceSdk "Init" =
        ⟨[], some ("\x7b\"action\":\"unknown\",\"status\":\"error\",\"message\":\"Unknown command: "
          ++ escapeJsonString "Init" ++ "\"\x7d")⟩ ∧
      executeCommand noDeviceSdk "foo" =
        ⟨[], some "\x7b\"action\":\"unknown\",\"status\":\"error\",\"message\":\"Unknown command: foo\"\x7d"⟩ :=
  executeCommand_unknown noDeviceSdk "Init" (by decide) (by decide) (by decide) (by decide)

/-! ## C3: the responses of the known commands as JSON -/

set_option maxRecDepth 100000 in
/-- C3 fails on the code: with one reader whose name holds the control character U+0001,
`query` returns a text with that character raw inside a string, which is not valid JSON: the
parser rejects it, with any amount of fuel, because the string literal is rejected. -/
theorem query_control_name_not_json :
    executeCommand controlNameSdk "query" =
        ⟨[SdkCall.dpfpdd_query_devices 0 none 0, SdkCall.dpfpdd_query_devices 1 (some 1) 0],
          some "\x7b\"action\":\"query\",\"status\":\"success\",\"devices\":[\x7b\"id\":0,\"name\":\"Reader\x01\",\"vendor_name\":\"DigitalPersona\",\"product_name\":\"Fingerprint Reader\",\"serial_number\":\"A1B2\",\"model\":\"Fingerprint Reader\",\"connected\":true\x7d],\"deviceCount\":1,\"message\":\"Device enumeration completed\",\"result_code\":0\x7d"⟩ ∧
      parseJson "\x7b\"action\":\"query\",\"status\":\"success\",\"devices\":[\x7b\"id\":0,\"name\":\"Reader\x01\",\"vendor_name\":\"DigitalPersona\",\"product_name\":\"Fingerprint Reader\",\"serial_number\":\"A1B2\",\"model\":\"Fingerprint Reader\",\"connected\":true\x7d],\"deviceCount\":1,\"message\":\"Device enumeration completed\",\"result_code\":0\x7d" = none ∧
      (∀ fuel : Nat, readValue fuel "\x7b\"action\":\"query\",\"status\":\"success\",\"devices\":[\x7b\"id\":0,\"name\":\"Reader\x01\",\"vendor_name\":\"DigitalPersona\",\"product_name\":\"Fingerprint Reader\",\"serial_number\":\"A1B2\",\"model\":\"Fingerprint Reader\",\"connected\":true\x7d],\"deviceCount\":1,\"message\":\"Device enumeration completed\",\"result_code\":0\x7d".data = none) ∧
      readString "Reader\x01\"".data = none := by
  refine ⟨by decide, by rfl, ?_, by rfl⟩
  intro fuel
  rcases fuel with _ | _ | _ | _ | _ | _ | _ | _ | _ | _ | _ | fuel <;> rfl

/-! ## C4, C5, C6: the arms of `query` without a device list -/

/-- C4: when the first enumeration call leaves a count of 0, whatever code `r` it returned,
`query` makes that one call only and returns the zero-devices success object carrying `r`. -/
theorem query_zero_count (sdk : Sdk) (hcnt : sdk.query1_cnt = 0) :
    executeCommand sdk "query" =
      ⟨[SdkCall.dpfpdd_query_devices 0 none sdk.query1_result],
        some ("\x7b\"action\":\"query\",\"status\":\"success\",\"devices\":[],\"deviceCount\":0,\"message\":\"No DigitalPersona devices found\",\"result_code\":"
          ++ to_string sdk.query1_result ++ "\x7d")⟩ := by
  rw [executeCommand_query, executeQuery_zero_count sdk hcnt]

/-- Witness for C4: a first call that fails with -1 and leaves the count at 0. -/
theorem query_zero_count_witness :
    executeCommand failingSdk "query" =
      ⟨[SdkCall.dpfpdd_query_devices 0 none failingSdk.query1_result],
        some ("\x7b\"action\":\"query\",\"status\":\"success\",\"devices\":[],\"deviceCount\":0,\"message\":\"No DigitalPersona devices found\",\"result_code\":"
          ++ to_string failingSdk.query1_result ++ "\x7d")⟩ :=
  query_zero_count failingSdk (by decide)

/-- C5 fails on the code: a first enumeration call that returns 5 and leaves a count of 3
is reported as an error without a device list, not as zero devices found. -/
theorem query_first_call_fails_positive_count :
    failingCountSdk.query1_result ≠ 0 ∧
      executeCommand failingCountSdk "query" =
        ⟨[SdkCall.dpfpdd_query_devices 0 none 5],
          some "\x7b\"action\":\"query\",\"status\":\"error\",\"message\":\"Failed to query devices\",\"result_code\":5\x7d"⟩ ∧
      parseJson "\x7b\"action\":\"query\",\"status\":\"error\",\"message\":\"Failed to query devices\",\"result_code\":5\x7d" =
        some (Json.obj [("action", Json.str "query"), ("status", Json.str "error"),
          ("message", Json.str "Failed to query devices"), ("result_code", Json.num "5")]) :=
  ⟨by decide, by decide, by rfl⟩

/-- C5 as amended: when the first enumeration call fails, `query` makes no second call; it
reports zero devices as success if the call left the count at 0, and reports the error
`Failed to query devices` without a device list if the call left a positive count. -/
theorem query_first_call_fails (sdk : Sdk) (hfail : sdk.query1_result ≠ 0) :
    (sdk.query1_cnt = 0 →
      executeCommand sdk "query" =
        ⟨[SdkCall.dpfpdd_query_devices 0 none sdk.query1_result],
          some ("\x7b\"action\":\"query\",\"status\":\"success\",\"devices\":[],\"deviceCount\":0,\"message\":\"No DigitalPersona devices found\",\"result_code\":"
            ++ to_string sdk.query1_result ++ "\x7d")⟩) ∧
    (0 < sdk.query1_cnt →
      executeCommand sdk "query" =
        ⟨[SdkCall.dpfpdd_query_devices 0 none sdk.query1_result],
          some ("\x7b\"action\":\"query\",\"status\":\"error\",\"message\":\"Failed to query devices\",\"result_code\":"
            ++ to_string sdk.query1_result ++ "\x7d")⟩) := by
  rw [executeCommand_query]
  exact ⟨fun hcnt => executeQuery_zero_count sdk hcnt,
    fun hcnt => executeQuery_first_fails sdk hfail hcnt⟩

/-- Witness for C5 as amended: both cases, at a failing call that leaves 0 and at one that
leaves 3. -/
theorem query_first_call_fails_witness :
    executeCommand failingSdk "query" =
        ⟨[SdkCall.dpfpdd_query_devices 0 none failingSdk.query1_result],
          some ("\x7b\"action\":\"query\",\"status\":\"success\",\"devices\":[],\"deviceCount\":0,\"message\":\"No DigitalPersona devices found\",\"result_code\":"
            ++ to_string failingSdk.query1_result ++ "\x7d")⟩ ∧
      executeCommand failingCountSdk "query" =
        ⟨[SdkCall.dpfpdd_query_devices 0 none failingCountSdk.query1_result],
          some ("\x7b\"action\":\"query\",\"status\":\"error\",\"message\":\"Failed to query devices\",\"result_code\":"
            ++ to_string failingCountSdk.query1_result ++ "\x7d")⟩ :=
  ⟨(query_first_call_fails failingSdk (by decide)).1 (by decide),
    (query_first_call_fails failingCountSdk (by decide)).2 (by decide)⟩

/-- C6: when the first enumeration call returns 0 with a positive count and the second call
returns a non-zero code, `query` returns exactly the `Failed to query device details` error
object carrying that code, whatever the second call wrote; the object has the four members
`action`, `status`, `message`, `result_code` and no `devices` member. -/
theorem query_detail_failure (sdk : Sdk) (hfirst : sdk.query1_result = 0)
    (hcnt : 0 < sdk.query1_cnt) (halloc : sdk.vector_alloc sdk.query1_cnt = none)
    (hsecond : sdk.query2_result ≠ 0) :
    executeCommand sdk "query" =
        ⟨[SdkCall.dpfpdd_query_devices 0 none sdk.query1_result,
            SdkCall.dpfpdd_query_devices sdk.query1_cnt (some sdk.query1_cnt) sdk.query2_result],
          some ("\x7b\"action\":\"query\",\"status\":\"error\",\"message\":\"Failed to query device details\",\"result_code\":"
            ++ to_string sdk.query2_result ++ "\x7d")⟩ ∧
      parseJson ("\x7b\"action\":\"query\",\"status\":\"error\",\"message\":\"Failed to query device details\",\"result_code\":"
            ++ to_string sdk.query2_result ++ "\x7d") =
        some (Json.obj [("action", Json.str "query"), ("status", Json.str "error"),
          ("message", Json.str "Failed to query device details"),
          ("result_code", Json.num (to_string sdk.query2_result))]) ∧
      Json.field "devices" (Json.obj [("action", Json.str "query"), ("status", Json.str "error"),
          ("message", Json.str "Failed to query device details"),
          ("result_code", Json.num (to_string sdk.query2_result))]) = none := by
  refine ⟨?_, ?_, by rfl⟩
  · rw [executeCommand_query, executeQuery_detail_fails sdk hfirst hcnt halloc hsecond]
  · apply parseJson_render
    · exact ⟨plainText _ (by decide), plainText _ (by decide), plainText _ (by decide),
        plainText _ (by decide), plainText _ (by decide), plainText _ (by decide),
        plainText _ (by decide), ⟨_, rfl⟩, trivial⟩
    · simp only [Json.render, renderMembers, String.data_append]
      rfl

/-- Witness for C6: two readers counted, the detail fetch fails with code 7. -/
theorem query_detail_failure_witness :
    executeCommand detailFailureSdk "query" =
        ⟨[SdkCall.dpfpdd_query_devices 0 none detailFailureSdk.query1_result,
            SdkCall.dpfpdd_query_devices detailFailureSdk.query1_cnt
              (some detailFailureSdk.query1_cnt) detailFailureSdk.query2_result],
          some ("\x7b\"action\":\"query\",\"status\":\"error\",\"message\":\"Failed to query device details\",\"result_code\":"
            ++ to_string detailFailureSdk.query2_result ++ "\x7d")⟩ ∧
      parseJson ("\x7b\"action\":\"query\",\"status\":\"error\",\"message\":\"Failed to query device details\",\"result_code\":"
            ++ to_string detailFailureSdk.query2_result ++ "\x7d") =
        some (Json.obj [("action", Json.str "query"), ("status", Json.str "error"),
          ("message", Json.str "Failed to query device details"),
          ("result_code", Json.num (to_string detailFailureSdk.query2_result))]) ∧
      Json.field "devices" (Json.obj [("action", Json.str "query"), ("status", Json.str "error"),
          ("message", Json.str "Failed to query device details"),
          ("result_code", Json.num (to_string detailFailureSdk.query2_result))]) = none :=
  query_detail_failure detailFailureSdk (by decide) (by decide) (by decide) (by decide)

/-! ## C7: SDK failures -/

set_option maxRecDepth 100000 in
/-- C7 fails on the code: the first enumeration call of `query` fails with -1 and leaves the
count at 0, and the response has status `success`, not `error`. -/
theorem query_failure_reported_as_success :
    SdkCall.dpfpdd_query_devices 0 none (-1) ∈ (executeCommand failingSdk "query").calls ∧
      (SdkCall.dpfpdd_query_devices 0 none (-1)).result ≠ 0 ∧
      (executeCommand failingSdk "query").response =
        some "\x7b\"action\":\"query\",\"status\":\"success\",\"devices\":[],\"deviceCount\":0,\"message\":\"No DigitalPersona devices found\",\"result_code\":-1\x7d" ∧
      parseJson "\x7b\"action\":\"query\",\"status\":\"success\",\"devices\":[],\"deviceCount\":0,\"message\":\"No DigitalPersona devices found\",\"result_code\":-1\x7d" =
        some (Json.obj [("action", Json.str "query"), ("status", Json.str "success"),
          ("devices", Json.arr []), ("deviceCount", Json.num "0"),
          ("message", Json.str "No DigitalPersona devices found"),
          ("result_code", Json.num "-1")]) :=
  ⟨by decide, by decide, by decide, by rfl⟩

/-- C7 as amended: for `init`, `query` and `cleanup`, a non-zero code returned by an SDK call
of the command is always the `result_code` of the response.  The status is `error`, with one
of the four failure messages, except for `query` when the first enumeration call left a count
of 0: then the response is the zero-devices success object. -/
theorem sdk_failure_reported (sdk : Sdk) (command : String) (call : SdkCall)
    (hcommand : command = "init" ∨ command = "query" ∨ command = "cleanup")
    (hcall : call ∈ (executeCommand sdk command).calls) (hfail : call.result ≠ 0) :
    (command = "query" ∧ sdk.query1_cnt = 0 ∧
      (executeCommand sdk command).response =
        some ("\x7b\"action\":\"query\",\"status\":\"success\",\"devices\":[],\"deviceCount\":0,\"message\":\"No DigitalPersona devices found\",\"result_code\":"
          ++ to_string call.result ++ "\x7d")) ∨
    (¬ (command = "query" ∧ sdk.query1_cnt = 0) ∧
      ∃ message, message ∈ ["Failed to initialize DigitalPersona Win32 SDK",
          "Failed to query devices", "Failed to query device details",
          "Failed to cleanup DigitalPersona Win32 SDK"] ∧
        (executeCommand sdk command).response =
          some ("\x7b\"action\":\"" ++ command ++ "\",\"status\":\"error\",\"message\":\"" ++ message
            ++ "\",\"result_code\":" ++ to_string call.result ++ "\x7d") ∧
        parseJson ("\x7b\"action\":\"" ++ command ++ "\",\"status\":\"error\",\"message\":\"" ++ message
            ++ "\",\"result_code\":" ++ to_string call.result ++ "\x7d") =
          some (Json.obj [("action", Json.str command), ("status", Json.str "error"),
            ("message", Json.str message), ("result_code", Json.num (to_string call.result))])) := by
  rcases hcommand with rfl | rfl | rfl
  · rw [executeCommand_init] at hcall ⊢
    simp only [executeInit, List.mem_singleton] at hcall
    subst hcall
    have hne : sdk.init_result ≠ 0 := hfail
    refine Or.inr ⟨by simp, "Failed to initialize DigitalPersona Win32 SDK", by simp, ?_, ?_⟩
    · simp [executeInit, hne, SdkCall.result, String.ext_iff]
    · apply parseJson_render
      · exact ⟨plainText _ (by decide), plainText _ (by decide), plainText _ (by decide),
          plainText _ (by decide), plainText _ (by decide), plainText _ (by decide),
          plainText _ (by decide), ⟨_, rfl⟩, trivial⟩
      · simp only [Json.render, renderMembers, String.data_append]
        rfl
  · rw [executeCommand_query] at hcall ⊢
    by_cases hzero : sdk.query1_cnt = 0
    · rw [executeQuery_zero_count sdk hzero] at hcall ⊢
      simp only [List.mem_singleton] at hcall
      subst hcall
      exact Or.inl ⟨rfl, hzero, rfl⟩
    · have hcnt : 0 < sdk.query1_cnt := Nat.pos_of_ne_zero hzero
      by_cases hfirst : sdk.query1_result = 0
      · cases halloc : sdk.vector_alloc sdk.query1_cnt with
        | some what =>
          rw [executeQuery_throws sdk what hfirst hcnt halloc] at hcall
          simp only [List.mem_singleton] at hcall
          subst hcall
          exact absurd hfirst hfail
        | none =>
          by_cases hsecond : sdk.query2_result = 0
          · have hcalls : call = SdkCall.dpfpdd_query_devices 0 none sdk.query1_result ∨
                call = SdkCall.dpfpdd_query_devices sdk.query1_cnt (some sdk.query1_cnt)
                  sdk.query2_result := by
              rcases Nat.lt_or_ge sdk.query1_cnt sdk.query2_cnt with hgt | hle
              · rw [executeQuery_out_of_bounds sdk hfirst hcnt halloc hsecond hgt] at hcall
                simpa using hcall
              · rw [executeQuery_lists sdk hfirst hcnt halloc hsecond hle] at hcall
                simpa using hcall
            rcases hcalls with rfl | rfl
            · exact absurd hfirst hfail
            · exact absurd hsecond hfail
          · rw [executeQuery_detail_fails sdk hfirst hcnt halloc hsecond] at hcall ⊢
            simp only [List.mem_cons, List.mem_singleton, List.not_mem_nil, or_false] at hcall
            rcases hcall with rfl | rfl
            · exact absurd hfirst hfail
            · refine Or.inr ⟨by simp [hzero], "Failed to query device details", by simp, ?_, ?_⟩
              · simp [SdkCall.result, String.ext_iff]
              · apply parseJson_render
                · exact ⟨plainText _ (by decide), plainText _ (by decide),
                    plainText _ (by decide), plainText _ (by decide), plainText _ (by decide),
                    plainText _ (by decide), plainText _ (by decide), ⟨_, rfl⟩, trivial⟩
                · simp only [Json.render, renderMembers, String.data_append]
                  rfl
      · rw [executeQuery_first_fails sdk hfirst hcnt] at hcall ⊢
        simp only [List.mem_singleton] at hcall
        subst hcall
        refine Or.inr ⟨by simp [hzero], "Failed to query devices", by simp, ?_, ?_⟩
        · simp [SdkCall.result, String.ext_iff]
        · apply parseJson_render
          · exact ⟨plainText _ (by decide), plainText _ (by decide), plainText _ (by decide),
              plainText _ (by decide), plainText _ (by decide), plainText _ (by decide),
              plainText _ (by decide), ⟨_, rfl⟩, trivial⟩
          · simp only [Json.render, renderMembers, String.data_append]
            rfl
  · rw [executeCommand_cleanup] at hcall ⊢
    simp only [executeCleanup, List.mem_singleton] at hcall
    subst hcall
    have hne : sdk.exit_result ≠ 0 := hfail
    refine Or.inr ⟨by simp, "Failed to cleanup DigitalPersona Win32 SDK", by simp, ?_, ?_⟩
    · simp [executeCleanup, hne, SdkCall.result, String.ext_iff]
    · apply parseJson_render
      · exact ⟨plainText _ (by decide), plainText _ (by decide), plainText _ (by decide),
          plainText _ (by decide), plainText _ (by decide), plainText _ (by decide),
          plainText _ (by decide), ⟨_, rfl⟩, trivial⟩
      · simp only [Json.render, renderMembers, String.data_append]
        rfl

/-- Witness for C7 as amended: `init` when `dpfpdd_init` returns -1. -/
theorem sdk_failure_reported_witness :
    ("init" = "query" ∧ failingSdk.query1_cnt = 0 ∧
      (executeCommand failingSdk "init").response =
        some ("\x7b\"action\":\"query\",\"status\":\"success\",\"devices\":[],\"deviceCount\":0,\"message\":\"No DigitalPersona devices found\",\"result_code\":"
          ++ to_string (SdkCall.dpfpdd_init (-1)).result ++ "\x7d")) ∨
    (¬ ("init" = "query" ∧ failingSdk.query1_cnt = 0) ∧
      ∃ message, message ∈ ["Failed to initialize DigitalPersona Win32 SDK",
          "Failed to query devices", "Failed to query device details",
          "Failed to cleanup DigitalPersona Win32 SDK"] ∧
        (executeCommand failingSdk "init").response =
          some ("\x7b\"action\":\"" ++ "init" ++ "\",\"status\":\"error\",\"message\":\"" ++ message
            ++ "\",\"result_code\":" ++ to_string (SdkCall.dpfpdd_init (-1)).result ++ "\x7d") ∧
        parseJson ("\x7b\"action\":\"" ++ "init" ++ "\",\"status\":\"error\",\"message\":\"" ++ message
            ++ "\",\"result_code\":" ++ to_string (SdkCall.dpfpdd_init (-1)).result ++ "\x7d") =
          some (Json.obj [("action", Json.str "init"), ("status", Json.str "error"),
            ("message", Json.str message),
            ("result_code", Json.num (to_string (SdkCall.dpfpdd_init (-1)).result))])) :=
  sdk_failure_reported failingSdk "init" (SdkCall.dpfpdd_init (-1)) (Or.inl rfl) (by decide)
    (by decide)

/-! ## C8: `init` and `cleanup` -/

/-- C8: for every return code `r` of `dpfpdd_init`, `init` calls that entry point once and
nothing else, and its response is the JSON object with `action` `init`, status `success` if
`r = 0` and `error` otherwise, a message, and `result_code` the decimal text of `r`, which
reads back as `r`; the same holds for `cleanup` with `dpfpdd_exit`. -/
theorem init_cleanup_result_code (sdk : Sdk) :
    (executeCommand sdk "init" =
        ⟨[SdkCall.dpfpdd_init sdk.init_result],
          some ("\x7b\"action\":\"init\",\"status\":\""
            ++ (if sdk.init_result = 0 then "success" else "error") ++ "\",\"message\":\""
            ++ (if sdk.init_result = 0 then "DigitalPersona Win32 SDK initialized successfully"
                else "Failed to initialize DigitalPersona Win32 SDK")
            ++ "\",\"result_code\":" ++ to_string sdk.init_result ++ "\x7d")⟩ ∧
      parseJson ("\x7b\"action\":\"init\",\"status\":\""
            ++ (if sdk.init_result = 0 then "success" else "error") ++ "\",\"message\":\""
            ++ (if sdk.init_result = 0 then "DigitalPersona Win32 SDK initialized successfully"
                else "Failed to initialize DigitalPersona Win32 SDK")
            ++ "\",\"result_code\":" ++ to_string sdk.init_result ++ "\x7d") =
        some (Json.obj [("action", Json.str "init"),
          ("status", Json.str (if sdk.init_result = 0 then "success" else "error")),
          ("message", Json.str
            (if sdk.init_result = 0 then "DigitalPersona Win32 SDK initialized successfully"
              else "Failed to initialize DigitalPersona Win32 SDK")),
          ("result_code", Json.num (to_string sdk.init_result))]) ∧
      (Json.num (to_string sdk.init_result)).toInt = some sdk.init_result) ∧
    (executeCommand sdk "cleanup" =
        ⟨[SdkCall.dpfpdd_exit sdk.exit_result],
          some ("\x7b\"action\":\"cleanup\",\"status\":\""
            ++ (if sdk.exit_result = 0 then "success" else "error") ++ "\",\"message\":\""
            ++ (if sdk.exit_result = 0 then "DigitalPersona Win32 SDK cleaned up successfully"
                else "Failed to cleanup DigitalPersona Win32 SDK")
            ++ "\",\"result_code\":" ++ to_string sdk.exit_result ++ "\x7d")⟩ ∧
      parseJson ("\x7b\"action\":\"cleanup\",\"status\":\""
            ++ (if sdk.exit_result = 0 then "success" else "error") ++ "\",\"message\":\""
            ++ (if sdk.exit_result = 0 then "DigitalPersona Win32 SDK cleaned up successfully"
                else "Failed to cleanup DigitalPersona Win32 SDK")
            ++ "\",\"result_code\":" ++ to_string sdk.exit_result ++ "\x7d") =
        some (Json.obj [("action", Json.str "cleanup"),
          ("status", Json.str (if sdk.exit_result = 0 then "success" else "error")),
          ("message", Json.str
            (if sdk.exit_result = 0 then "DigitalPersona Win32 SDK cleaned up successfully"
              else "Failed to cleanup DigitalPersona Win32 SDK")),
          ("result_code", Json.num (to_string sdk.exit_result))]) ∧
      (Json.num (to_string sdk.exit_result)).toInt = some sdk.exit_result) := by
  refine ⟨⟨?_, ?_, readInt_to_string _⟩, ⟨?_, ?_, readInt_to_string _⟩⟩
  · rw [executeCommand_init]
    by_cases h : sdk.init_result = 0 <;> simp [executeInit, h, String.ext_iff]
  · apply parseJson_render
    · by_cases h : sdk.init_result = 0 <;> simp only [h, if_true, if_false] <;>
        exact ⟨plainText _ (by decide), plainText _ (by decide), plainText _ (by decide),
          plainText _ (by decide), plainText _ (by decide), plainText _ (by decide),
          plainText _ (by decide), ⟨_, rfl⟩, trivial⟩
    · by_cases h : sdk.init_result = 0 <;>
        simp only [h, if_true, if_false, Json.render, renderMembers, String.data_append] <;> rfl
  · rw [executeCommand_cleanup]
    by_cases h : sdk.exit_result = 0 <;> simp [executeCleanup, h, String.ext_iff]
  · apply parseJson_render
    · by_cases h : sdk.exit_result = 0 <;> simp only [h, if_true, if_false] <;>
        exact ⟨plainText _ (by decide), plainText _ (by decide), plainText _ (by decide),
          plainText _ (by decide), plainText _ (by decide), plainText _ (by decide),
          plainText _ (by decide), ⟨_, rfl⟩, trivial⟩
    · by_cases h : sdk.exit_result = 0 <;>
        simp only [h, if_true, if_false, Json.render, renderMembers, String.data_append] <;> rfl

/-! ## C9: the device list -/

/-- C9: when both enumeration calls return 0 and the second leaves a positive count `n` that
the buffer of the first call holds, `query` returns status `success`, a `devices` array of
exactly `n` objects in record order, `deviceCount` `n` and `result_code` 0; object `i` has
`id` `i`, the escaped `name`, `vendor_name`, `product_name` and `serial_num` of record `i`,
a `model` equal to its `product_name`, and `connected` true.  When the strings of the records
hold only characters that `escapeJsonString` handles, the text parses to that object. -/
theorem query_lists_devices (sdk : Sdk) (n : Nat) (hfirst : sdk.query1_result = 0)
    (halloc : sdk.vector_alloc sdk.query1_cnt = none) (hsecond : sdk.query2_result = 0)
    (hn : sdk.query2_cnt = n) (hpos : 0 < n) (hle : n ≤ sdk.query1_cnt) :
    executeCommand sdk "query" =
        ⟨[SdkCall.dpfpdd_query_devices 0 none 0,
            SdkCall.dpfpdd_query_devices sdk.query1_cnt (some sdk.query1_cnt) 0],
          some ("\x7b\"action\":\"query\",\"status\":\"success\",\"devices\":["
            ++ commaSeparated
              ((List.range n).map (fun i => deviceObject i (sdk.query2_infos i)))
            ++ "],\"deviceCount\":" ++ to_string n
            ++ ",\"message\":\"Device enumeration completed\",\"result_code\":0\x7d")⟩ ∧
      ((List.range n).map (fun i => deviceObject i (sdk.query2_infos i))).length = n ∧
      (∀ i : Nat, i < n →
        ((List.range n).map (fun i => deviceObject i (sdk.query2_infos i)))[i]? =
          some ("\x7b\"id\":" ++ to_string i
            ++ ",\"name\":\"" ++ escapeJsonString (sdk.query2_infos i).name
            ++ "\",\"vendor_name\":\"" ++ escapeJsonString (sdk.query2_infos i).vendor_name
            ++ "\",\"product_name\":\"" ++ escapeJsonString (sdk.query2_infos i).product_name
            ++ "\",\"serial_number\":\"" ++ escapeJsonString (sdk.query2_infos i).serial_num
            ++ "\",\"model\":\"" ++ escapeJsonString (sdk.query2_infos i).product_name
            ++ "\",\"connected\":true\x7d")) ∧
      ((∀ i : Nat, i < n → plainInfo (sdk.query2_infos i)) →
        parseJson ("\x7b\"action\":\"query\",\"status\":\"success\",\"devices\":["
            ++ commaSeparated
              ((List.range n).map (fun i => deviceObject i (sdk.query2_infos i)))
            ++ "],\"deviceCount\":" ++ to_string n
            ++ ",\"message\":\"Device enumeration completed\",\"result_code\":0\x7d") =
          some (Json.obj [("action", Json.str "query"), ("status", Json.str "success"),
            ("devices",
              Json.arr ((List.range n).map (fun i => deviceJson i (sdk.query2_infos i)))),
            ("deviceCount", Json.num (to_string n)),
            ("message", Json.str "Device enumeration completed"),
            ("result_code", Json.num "0")])) := by
  subst hn
  have hzero : to_string (0 : Int) = "0" := by decide
  refine ⟨?_, by simp, ?_, ?_⟩
  · rw [executeCommand_query,
      executeQuery_lists sdk hfirst (Nat.lt_of_lt_of_le hpos hle) halloc hsecond hle, hfirst,
      hsecond, hzero]
    simp [String.ext_iff]
  · intro i hi
    simp [List.getElem?_map, List.getElem?_range hi, deviceObject]
  · intro hplain
    have h := query_list_parses sdk.query2_infos sdk.query2_cnt 0 hplain
    rw [hzero] at h
    rw [← h]
    congr 1
    simp [String.ext_iff]

/-- Witness for C9: two readers, both calls succeed, and the response parses. -/
theorem query_lists_devices_witness :
    executeCommand twoDeviceSdk "query" =
        ⟨[SdkCall.dpfpdd_query_devices 0 none 0, SdkCall.dpfpdd_query_devices 2 (some 2) 0],
          some ("\x7b\"action\":\"query\",\"status\":\"success\",\"devices\":["
            ++ commaSeparated
              ((List.range 2).map (fun i => deviceObject i (twoDeviceSdk.query2_infos i)))
            ++ "],\"deviceCount\":" ++ to_string (2 : Nat)
            ++ ",\"message\":\"Device enumeration completed\",\"result_code\":0\x7d")⟩ ∧
      parseJson ("\x7b\"action\":\"query\",\"status\":\"success\",\"devices\":["
            ++ commaSeparated
              ((List.range 2).map (fun i => deviceObject i (twoDeviceSdk.query2_infos i)))
            ++ "],\"deviceCount\":" ++ to_string (2 : Nat)
            ++ ",\"message\":\"Device enumeration completed\",\"result_code\":0\x7d") =
          some (Json.obj [("action", Json.str "query"), ("status", Json.str "success"),
            ("devices",
              Json.arr ((List.range 2).map (fun i => deviceJson i (twoDeviceSdk.query2_infos i)))),
            ("deviceCount", Json.num (to_string (2 : Nat))),
            ("message", Json.str "Device enumeration completed"),
            ("result_code", Json.num "0")]) :=
  ⟨(query_lists_devices twoDeviceSdk 2 (by decide) (by decide) (by decide) (by decide)
      (by decide) (by decide)).1,
    (query_lists_devices twoDeviceSdk 2 (by decide) (by decide) (by decide) (by decide)
      (by decide) (by decide)).2.2.2
      (fun _ _ => sampleInfo_plain)⟩

/-! ## C10: the `result_code` of `query` -/

/-- C10: in every `query` response of the four arms (no exception thrown, no read outside the
buffer) the text ends with `result_code` set to the code of the last enumeration call made:
the first call's code when only one call was made (zero devices, or first call failed with a
positive count), the second call's code when the second call was made (devices listed, or
detail fetch failed). -/
theorem query_result_code_last_call (sdk : Sdk) (out : String)
    (hout : (executeCommand sdk "query").response = some out)
    (hnothrow : sdk.query1_result = 0 → 0 < sdk.query1_cnt →
      sdk.vector_alloc sdk.query1_cnt = none) :
    ∃ last body,
      (executeCommand sdk "query").calls.getLast? = some last ∧
      out = "\x7b\"action\":\"query\"," ++ body ++ ",\"result_code\":" ++ to_string last.result
        ++ "\x7d" ∧
      (((executeCommand sdk "query").calls =
            [SdkCall.dpfpdd_query_devices 0 none sdk.query1_result] ∧
          last.result = sdk.query1_result ∧
          (body = "\"status\":\"success\",\"devices\":[],\"deviceCount\":0,\"message\":\"No DigitalPersona devices found\"" ∨
            body = "\"status\":\"error\",\"message\":\"Failed to query devices\"")) ∨
        ((executeCommand sdk "query").calls =
            [SdkCall.dpfpdd_query_devices 0 none sdk.query1_result,
              SdkCall.dpfpdd_query_devices sdk.query1_cnt (some sdk.query1_cnt)
                sdk.query2_result] ∧
          last.result = sdk.query2_result ∧
          (body = "\"status\":\"success\",\"devices\":["
              ++ commaSeparated
                ((List.range sdk.query2_cnt).map (fun i => deviceObject i (sdk.query2_infos i)))
              ++ "],\"deviceCount\":" ++ to_string sdk.query2_cnt
              ++ ",\"message\":\"Device enumeration completed\"" ∨
            body = "\"status\":\"error\",\"message\":\"Failed to query device details\""))) := by
  rw [executeCommand_query] at hout ⊢
  by_cases hzero : sdk.query1_cnt = 0
  · rw [executeQuery_zero_count sdk hzero] at hout ⊢
    refine ⟨SdkCall.dpfpdd_query_devices 0 none sdk.query1_result, _, rfl, ?_,
      Or.inl ⟨rfl, rfl, Or.inl rfl⟩⟩
    rw [← Option.some.inj hout]
    simp [SdkCall.result, String.ext_iff]
  · have hcnt : 0 < sdk.query1_cnt := Nat.pos_of_ne_zero hzero
    by_cases hfirst : sdk.query1_result = 0
    · have halloc := hnothrow hfirst hcnt
      by_cases hsecond : sdk.query2_result = 0
      · rcases Nat.lt_or_ge sdk.query1_cnt sdk.query2_cnt with hgt | hle
        · rw [executeQuery_out_of_bounds sdk hfirst hcnt halloc hsecond hgt] at hout
          exact absurd hout (by simp)
        · rw [executeQuery_lists sdk hfirst hcnt halloc hsecond hle] at hout ⊢
          refine ⟨SdkCall.dpfpdd_query_devices sdk.query1_cnt (some sdk.query1_cnt)
            sdk.query2_result, _, rfl, ?_, Or.inr ⟨rfl, rfl, Or.inl rfl⟩⟩
          rw [← Option.some.inj hout]
          simp [SdkCall.result, String.ext_iff]
      · rw [executeQuery_detail_fails sdk hfirst hcnt halloc hsecond] at hout ⊢
        refine ⟨SdkCall.dpfpdd_query_devices sdk.query1_cnt (some sdk.query1_cnt)
          sdk.query2_result, _, rfl, ?_, Or.inr ⟨rfl, rfl, Or.inr rfl⟩⟩
        rw [← Option.some.inj hout]
        simp [SdkCall.result, String.ext_iff]
    · rw [executeQuery_first_fails sdk hfirst hcnt] at hout ⊢
      refine ⟨SdkCall.dpfpdd_query_devices 0 none sdk.query1_result, _, rfl, ?_,
        Or.inl ⟨rfl, rfl, Or.inr rfl⟩⟩
      rw [← Option.some.inj hout]
      simp [SdkCall.result, String.ext_iff]

/-- Witness for C10: two readers counted, the detail fetch fails with code 7, and the
response carries 7. -/
theorem query_result_code_last_call_witness :
    ∃ last body,
      (executeCommand detailFailureSdk "query").calls.getLast? = some last ∧
      "\x7b\"action\":\"query\",\"status\":\"error\",\"message\":\"Failed to query device details\",\"result_code\":7\x7d" =
        "\x7b\"action\":\"query\"," ++ body ++ ",\"result_code\":" ++ to_string last.result
          ++ "\x7d" ∧
      (((executeCommand detailFailureSdk "query").calls =
            [SdkCall.dpfpdd_query_devices 0 none detailFailureSdk.query1_result] ∧
          last.result = detailFailureSdk.query1_result ∧
          (body = "\"status\":\"success\",\"devices\":[],\"deviceCount\":0,\"message\":\"No DigitalPersona devices found\"" ∨
            body = "\"status\":\"error\",\"message\":\"Failed to query devices\"")) ∨
        ((executeCommand detailFailureSdk "query").calls =
            [SdkCall.dpfpdd_query_devices 0 none detailFailureSdk.query1_result,
              SdkCall.dpfpdd_query_devices detailFailureSdk.query1_cnt
                (some detailFailureSdk.query1_cnt) detailFailureSdk.query2_result] ∧
          last.result = detailFailureSdk.query2_result ∧
          (body = "\"status\":\"success\",\"devices\":["
              ++ commaSeparated
                ((List.range detailFailureSdk.query2_cnt).map
                  (fun i => deviceObject i (detailFailureSdk.query2_infos i)))
              ++ "],\"deviceCount\":" ++ to_string detailFailureSdk.query2_cnt
              ++ ",\"message\":\"Device enumeration completed\"" ∨
            body = "\"status\":\"error\",\"message\":\"Failed to query device details\""))) :=
  query_result_code_last_call detailFailureSdk
    "\x7b\"action\":\"query\",\"status\":\"error\",\"message\":\"Failed to query device details\",\"result_code\":7\x7d"
    (by decide) (fun _ _ => by decide)

/-! ## More on escaping and decimal texts -/

theorem escapeJsonString_append (a b : String) :
    escapeJsonString (a ++ b) = escapeJsonString a ++ escapeJsonString b := by
  unfold escapeJsonString
  rw [String.data_append, List.foldl_append, escapeJsonString_fold]

theorem escapeChar_eq_sevenRules (c : Char) : (escapeChar c).data = sevenRules c := by
  unfold escapeChar sevenRules
  split
  all_goals try (simp; done)
  next h1 h2 h3 h4 h5 h6 h7 =>
    have g1 : c ≠ '"' := h1
    have g2 : c ≠ '\\' := h2
    have g3 : c ≠ '\x08' := h3
    have g4 : c ≠ '\x0c' := h4
    have g5 : c ≠ '\n' := h5
    have g6 : c ≠ '\r' := h6
    have g7 : c ≠ '\t' := h7
    simp [g1, g2, g3, g4, g5, g6, g7, String.singleton]

theorem sevenRules_of_not_escaped (c : Char) (h : isEscaped c = false) : sevenRules c = [c] := by
  simp only [isEscaped, Bool.or_eq_false_iff, decide_eq_false_iff_not] at h
  obtain ⟨⟨⟨⟨⟨⟨h1, h2⟩, h3⟩, h4⟩, h5⟩, h6⟩, h7⟩ := h
  simp [sevenRules, h1, h2, h3, h4, h5, h6, h7]

theorem escapeJsonString_verbatim (s : List Char) (h : ∀ c ∈ s, isEscaped c = false) :
    escapeJsonString (String.mk s) = String.mk s := by
  induction s with
  | nil => rfl
  | cons c cs ih =>
    rw [escapeJsonString_cons, ih (fun d hd => h d (List.mem_cons_of_mem _ hd))]
    apply String.ext
    rw [String.data_append, escapeChar_eq_sevenRules,
      sevenRules_of_not_escaped c (h c (List.mem_cons_self _ _))]
    rfl

theorem to_string_chars (n : Int) :
    ∀ c ∈ (to_string n).data, c = '-' ∨ isDigit c = true := by
  cases n with
  | ofNat m =>
    obtain ⟨-, hdig, -, -⟩ := toDigits_spec m
    intro c hc
    exact Or.inr (hdig c hc)
  | negSucc m =>
    obtain ⟨-, hdig, -, -⟩ := toDigits_spec (m + 1)
    intro c hc
    rw [to_string_negSucc] at hc
    rcases List.mem_cons.mp hc with rfl | hc
    · exact Or.inl rfl
    · exact Or.inr (hdig c hc)

theorem number_char (c : Char) (h : c = '-' ∨ isDigit c = true) :
    isEscaped c = false ∧ escapable c = true ∧ c ≠ '\n' ∧ c ≠ '\r' := by
  rcases h with h | h
  · subst h
    decide
  · have hb : 48 ≤ c.toNat ∧ c.toNat ≤ 57 := by
      simp only [isDigit, decide_eq_true_eq] at h
      exact ⟨h.1, h.2⟩
    refine ⟨?_, ?_, ?_, ?_⟩
    · cases he : isEscaped c
      · rfl
      · simp only [isEscaped, Bool.or_eq_true, decide_eq_true_eq] at he
        rcases he with (((((he | he) | he) | he) | he) | he) | he <;>
          (subst he; revert hb; decide)
    · simp only [escapable, Bool.or_eq_true, decide_eq_true_eq]
      exact Or.inl (Or.inl (Or.inl (Or.inl (Or.inl (by omega)))))
    all_goals (intro hc; subst hc; revert hb; decide)

theorem escapeJsonString_to_string (n : Int) : escapeJsonString (to_string n) = to_string n :=
  escapeJsonString_verbatim (to_string n).data
    (fun c hc => (number_char c (to_string_chars n c hc)).1)

theorem to_string_plain (n : Int) : ∀ c ∈ (to_string n).data, escapable c = true :=
  fun c hc => (number_char c (to_string_chars n c hc)).2.1


theorem escapeJsonString_rules (s : List Char) :
    (escapeJsonString (String.mk s)).data = (s.map sevenRules).flatten := by
  induction s with
  | nil => rfl
  | cons c cs ih =>
    rw [escapeJsonString_cons, String.data_append, escapeChar_eq_sevenRules, ih]
    rfl

theorem sevenRules_length (c : Char) :
    (sevenRules c).length = 1 + (if isEscaped c = true then 1 else 0) := by
  cases h : isEscaped c
  · rw [sevenRules_of_not_escaped c h]
    rfl
  · simp only [isEscaped, Bool.or_eq_true, decide_eq_true_eq] at h
    rcases h with (((((h | h) | h) | h) | h) | h) | h <;> (subst h; rfl)

theorem sevenRules_join_length (s : List Char) :
    ((s.map sevenRules).flatten).length = s.length + s.countP isEscaped := by
  induction s with
  | nil => rfl
  | cons c cs ih =>
    simp only [List.map_cons, List.flatten_cons, List.length_append, List.length_cons, ih,
      sevenRules_length, List.countP_cons]
    omega

theorem escapable_of_controls (c : Char)
    (h : c.toNat < 0x20 → c = '\x08' ∨ c = '\x0c' ∨ c = '\n' ∨ c = '\r' ∨ c = '\t') :
    escapable c = true := by
  simp only [escapable, Bool.or_eq_true, decide_eq_true_eq]
  by_cases hc : c.toNat < 0x20
  · rcases h hc with h | h | h | h | h <;> simp [h]
  · exact Or.inl (Or.inl (Or.inl (Or.inl (Or.inl (by omega)))))

theorem unescape_sevenRules (c : Char) (tail : List Char) :
    unescape (sevenRules c ++ tail) = c :: unescape tail := by
  cases h : isEscaped c
  · rw [sevenRules_of_not_escaped c h]
    have hb : c ≠ '\\' := by
      intro hc
      rw [hc] at h
      exact absurd h (by decide)
    cases tail with
    | nil => rfl
    | cons e rest => simp [unescape, hb]
  · simp only [isEscaped, Bool.or_eq_true, decide_eq_true_eq] at h
    rcases h with (((((h | h) | h) | h) | h) | h) | h <;>
      (subst h; simp [sevenRules, unescape, escapedChar])

theorem unescape_escapeJsonString (s : List Char) :
    unescape (escapeJsonString (String.mk s)).data = s := by
  rw [escapeJsonString_rules]
  induction s with
  | nil => rfl
  | cons c cs ih =>
    rw [List.map_cons, List.flatten_cons, unescape_sevenRules]
    exact congrArg (c :: ·) ih

/-! ## Responses as compact texts of JSON values -/

theorem parseJson_of_renders (text : String) (j : Json) (h : Renders text j) :
    parseJson text = some j :=
  parseJson_render j text h.2 h.1

/-- A rendered text followed by the line feed of `std::endl` still parses to the value. -/
theorem parseJson_line_of_renders (text : String) (j : Json) (h : Renders text j) :
    parseJson (text ++ "\n") = some j := by
  have hdata : (text ++ "\n").data = j.render ++ ['\n'] := by
    rw [String.data_append, h.1]
  have hlen : j.reads ≤ (text ++ "\n").length + 1 := by
    have := reads_le_length j h.2
    have hl : (text ++ "\n").length = j.render.length + 1 := by
      rw [String.length, hdata, List.length_append]
      rfl
    omega
  have hread := (read_render ((text ++ "\n").length + 1)).1 j ['\n'] h.2 hlen (by decide)
  rw [← hdata] at hread
  unfold parseJson
  rw [hread]
  rfl

theorem executeInit_response (sdk : Sdk) :
    executeInit sdk =
      ⟨[SdkCall.dpfpdd_init sdk.init_result],
        some ("\x7b\"action\":\"init\",\"status\":\""
          ++ (if sdk.init_result = 0 then "success" else "error") ++ "\",\"message\":\""
          ++ (if sdk.init_result = 0 then "DigitalPersona Win32 SDK initialized successfully"
              else "Failed to initialize DigitalPersona Win32 SDK")
          ++ "\",\"result_code\":" ++ to_string sdk.init_result ++ "\x7d")⟩ := by
  by_cases h : sdk.init_result = 0 <;> simp [executeInit, h, String.ext_iff]

theorem executeCleanup_response (sdk : Sdk) :
    executeCleanup sdk =
      ⟨[SdkCall.dpfpdd_exit sdk.exit_result],
        some ("\x7b\"action\":\"cleanup\",\"status\":\""
          ++ (if sdk.exit_result = 0 then "success" else "error") ++ "\",\"message\":\""
          ++ (if sdk.exit_result = 0 then "DigitalPersona Win32 SDK cleaned up successfully"
              else "Failed to cleanup DigitalPersona Win32 SDK")
          ++ "\",\"result_code\":" ++ to_string sdk.exit_result ++ "\x7d")⟩ := by
  by_cases h : sdk.exit_result = 0 <;> simp [executeCleanup, h, String.ext_iff]

theorem executeUnknown_response (command : String) :
    executeUnknown command =
      ⟨[], some ("\x7b\"action\":\"unknown\",\"status\":\"error\",\"message\":\"Unknown command: "
        ++ escapeJsonString command ++ "\"\x7d")⟩ := by
  simp [executeUnknown, String.ext_iff]

theorem catchResponse_query (what : String) :
    catchResponse "query" what =
      "\x7b\"action\":\"query\",\"status\":\"error\",\"message\":\"Exception: "
        ++ escapeJsonString what ++ "\"\x7d" := by
  simp [catchResponse, String.ext_iff]

/-- A response with `action`, `status`, `message` and `result_code` is the compact text of the
object with these four members, when the three strings need no escaping. -/
theorem renders_result (action status message : String) (code : Int)
    (ha : escapeJsonString action = action ∧ action.data.all escapable = true)
    (hs : escapeJsonString status = status ∧ status.data.all escapable = true)
    (hm : escapeJsonString message = message ∧ message.data.all escapable = true) :
    Renders ("\x7b\"action\":\"" ++ action ++ "\",\"status\":\"" ++ status
        ++ "\",\"message\":\"" ++ message ++ "\",\"result_code\":" ++ to_string code ++ "\x7d")
      (Json.obj [("action", Json.str action), ("status", Json.str status),
        ("message", Json.str message), ("result_code", Json.num (to_string code))]) := by
  constructor
  · simp only [Json.render, renderMembers, String.data_append, ha.1, hs.1, hm.1,
      (by decide : escapeJsonString "action" = "action"),
      (by decide : escapeJsonString "status" = "status"),
      (by decide : escapeJsonString "message" = "message"),
      (by decide : escapeJsonString "result_code" = "result_code")]
    simp
  · exact ⟨plainText _ (by decide), plainText _ ha.2, plainText _ (by decide),
      plainText _ hs.2, plainText _ (by decide), plainText _ hm.2, plainText _ (by decide),
      ⟨_, rfl⟩, trivial⟩

/-- A response with `action`, `status` and a `message` that ends in escaped text is the
compact text of the object with these three members, when the embedded text is plain. -/
theorem renders_message (action status lead text : String)
    (ha : escapeJsonString action = action ∧ action.data.all escapable = true)
    (hs : escapeJsonString status = status ∧ status.data.all escapable = true)
    (hl : escapeJsonString lead = lead ∧ lead.data.all escapable = true)
    (ht : ∀ c ∈ text.data, escapable c = true) :
    Renders ("\x7b\"action\":\"" ++ action ++ "\",\"status\":\"" ++ status
        ++ "\",\"message\":\"" ++ lead ++ escapeJsonString text ++ "\"\x7d")
      (Json.obj [("action", Json.str action), ("status", Json.str status),
        ("message", Json.str (lead ++ text))]) := by
  constructor
  · simp only [Json.render, renderMembers, String.data_append, escapeJsonString_append, ha.1,
      hs.1, hl.1,
      (by decide : escapeJsonString "action" = "action"),
      (by decide : escapeJsonString "status" = "status"),
      (by decide : escapeJsonString "message" = "message")]
    simp
  · refine ⟨plainText _ (by decide), plainText _ ha.2, plainText _ (by decide),
      plainText _ hs.2, plainText _ (by decide), ?_, trivial⟩
    intro c hc
    rw [String.data_append] at hc
    rcases List.mem_append.mp hc with hc | hc
    · exact plainText lead hl.2 c hc
    · exact ht c hc

theorem renders_zero_count (code : Int) :
    Renders ("\x7b\"action\":\"query\",\"status\":\"success\",\"devices\":[],\"deviceCount\":0,\"message\":\"No DigitalPersona devices found\",\"result_code\":"
        ++ to_string code ++ "\x7d")
      (Json.obj [("action", Json.str "query"), ("status", Json.str "success"),
        ("devices", Json.arr []), ("deviceCount", Json.num "0"),
        ("message", Json.str "No DigitalPersona devices found"),
        ("result_code", Json.num (to_string code))]) := by
  constructor
  · simp only [Json.render, renderMembers, renderItems, String.data_append]
    rfl
  · exact ⟨plainText _ (by decide), plainText _ (by decide), plainText _ (by decide),
      plainText _ (by decide), plainText _ (by decide), trivial, plainText _ (by decide),
      ⟨0, by decide⟩, plainText _ (by decide), plainText _ (by decide),
      plainText _ (by decide), ⟨_, rfl⟩, trivial⟩

theorem renders_list (infos : Nat → DPFPDD_DEV_INFO) (n : Nat) (code : Int)
    (hplain : ∀ i, i < n → plainInfo (infos i)) :
    Renders ("\x7b\"action\":\"query\",\"status\":\"success\",\"devices\":["
        ++ commaSeparated ((List.range n).map (fun i => deviceObject i (infos i)))
        ++ "],\"deviceCount\":" ++ to_string n
        ++ ",\"message\":\"Device enumeration completed\",\"result_code\":"
        ++ to_string code ++ "\x7d")
      (Json.obj [("action", Json.str "query"), ("status", Json.str "success"),
        ("devices", Json.arr ((List.range n).map (fun i => deviceJson i (infos i)))),
        ("deviceCount", Json.num (to_string n)),
        ("message", Json.str "Device enumeration completed"),
        ("result_code", Json.num (to_string code))]) := by
  have hitems : (commaSeparated ((List.range n).map (fun i => deviceObject i (infos i)))).data
      ++ [']'] = renderItems ((List.range n).map (fun i => deviceJson i (infos i))) := by
    apply commaSeparated_render
    rw [List.forall₂_map_left_iff, List.forall₂_map_right_iff]
    exact List.forall₂_same.mpr (fun i _ => deviceObject_render i (infos i))
  constructor
  · simp only [Json.render, renderMembers, String.data_append, ← hitems,
      (by decide : escapeJsonString "action" = "action"),
      (by decide : escapeJsonString "query" = "query"),
      (by decide : escapeJsonString "status" = "status"),
      (by decide : escapeJsonString "success" = "success"),
      (by decide : escapeJsonString "devices" = "devices"),
      (by decide : escapeJsonString "deviceCount" = "deviceCount"),
      (by decide : escapeJsonString "message" = "message"),
      (by decide : escapeJsonString "Device enumeration completed" =
        "Device enumeration completed"),
      (by decide : escapeJsonString "result_code" = "result_code")]
    simp
  · refine ⟨plainText _ (by decide), plainText _ (by decide), plainText _ (by decide),
      plainText _ (by decide), plainText _ (by decide), ?_, plainText _ (by decide),
      ⟨_, rfl⟩, plainText _ (by decide), plainText _ (by decide), plainText _ (by decide),
      ⟨_, rfl⟩, trivial⟩
    apply plainItems_of_forall
    intro v hv
    obtain ⟨i, hi, rfl⟩ := List.mem_map.mp hv
    exact deviceJson_plain i (infos i) (hplain i (List.mem_range.mp hi))

/-! ## The `capture` response -/

set_option maxRecDepth 100000 in
theorem executeCapture_response (sdk : Sdk) :
    executeCapture sdk =
      ⟨[], some ("\x7b\"action\":\"capture\",\"status\":\"success\",\"quality\":\"simulated\",\"deviceName\":\"DigitalPersona Reader (Win32)\",\"timestamp\":"
        ++ to_string sdk.tick1
        ++ ",\"message\":\"Fingerprint capture simulated - native win32 library communication successful\",\"simulatedData\":\"DP_WIN32_FINGERPRINT_DATA_"
        ++ to_string sdk.tick2
        ++ "\",\"note\":\"This is a simulated response from native win32 libraries\"\x7d")⟩ := by
  simp [executeCapture, String.ext_iff]

set_option maxRecDepth 100000 in
theorem renders_capture (tick1 tick2 : Nat) :
    Renders ("\x7b\"action\":\"capture\",\"status\":\"success\",\"quality\":\"simulated\",\"deviceName\":\"DigitalPersona Reader (Win32)\",\"timestamp\":"
        ++ to_string tick1
        ++ ",\"message\":\"Fingerprint capture simulated - native win32 library communication successful\",\"simulatedData\":\"DP_WIN32_FINGERPRINT_DATA_"
        ++ to_string tick2
        ++ "\",\"note\":\"This is a simulated response from native win32 libraries\"\x7d")
      (Json.obj [("action", Json.str "capture"), ("status", Json.str "success"),
        ("quality", Json.str "simulated"),
        ("deviceName", Json.str "DigitalPersona Reader (Win32)"),
        ("timestamp", Json.num (to_string tick1)),
        ("message", Json.str
          "Fingerprint capture simulated - native win32 library communication successful"),
        ("simulatedData", Json.str ("DP_WIN32_FINGERPRINT_DATA_" ++ to_string tick2)),
        ("note", Json.str "This is a simulated response from native win32 libraries")]) := by
  constructor
  · simp only [Json.render, renderMembers, String.data_append, escapeJsonString_append,
      escapeJsonString_to_string,
      (by decide : escapeJsonString "action" = "action"),
      (by decide : escapeJsonString "capture" = "capture"),
      (by decide : escapeJsonString "status" = "status"),
      (by decide : escapeJsonString "success" = "success"),
      (by decide : escapeJsonString "quality" = "quality"),
      (by decide : escapeJsonString "simulated" = "simulated"),
      (by decide : escapeJsonString "deviceName" = "deviceName"),
      (by decide : escapeJsonString "DigitalPersona Reader (Win32)" =
        "DigitalPersona Reader (Win32)"),
      (by decide : escapeJsonString "timestamp" = "timestamp"),
      (by decide : escapeJsonString "message" = "message"),
      (by decide : escapeJsonString
          "Fingerprint capture simulated - native win32 library communication successful" =
        "Fingerprint capture simulated - native win32 library communication successful"),
      (by decide : escapeJsonString "simulatedData" = "simulatedData"),
      (by decide : escapeJsonString "DP_WIN32_FINGERPRINT_DATA_" =
        "DP_WIN32_FINGERPRINT_DATA_"),
      (by decide : escapeJsonString "note" = "note"),
      (by decide : escapeJsonString "This is a simulated response from native win32 libraries" =
        "This is a simulated response from native win32 libraries")]
    simp
  · refine ⟨plainText _ (by decide), plainText _ (by decide), plainText _ (by decide),
      plainText _ (by decide), plainText _ (by decide), plainText _ (by decide),
      plainText _ (by decide), plainText _ (by decide), plainText _ (by decide), ⟨_, rfl⟩,
      plainText _ (by decide), plainText _ (by decide), plainText _ (by decide), ?_,
      plainText _ (by decide), plainText _ (by decide), trivial⟩
    intro c hc
    rw [String.data_append] at hc
    rcases List.mem_append.mp hc with hc | hc
    · exact plainText "DP_WIN32_FINGERPRINT_DATA_" (by decide) c hc
    · exact to_string_plain _ c hc

theorem to_string_injective (a b : Int) (h : to_string a = to_string b) : a = b := by
  have ha := readInt_to_string a
  rw [h, readInt_to_string b] at ha
  exact (Option.some.inj ha).symm

/-! ## Every response is one line, and the compact text of an object -/

theorem singleLine_append (a b : String) :
    singleLine (a ++ b) = (singleLine a && singleLine b) := by
  simp [singleLine, String.data_append, List.all_append]

theorem sevenRules_singleLine (c : Char) :
    (sevenRules c).all (fun x => x != '\n' && x != '\r') = true := by
  cases h : isEscaped c
  · rw [sevenRules_of_not_escaped c h]
    simp only [isEscaped, Bool.or_eq_false_iff, decide_eq_false_iff_not] at h
    simp [h.1.1.2, h.1.2]
  · simp only [isEscaped, Bool.or_eq_true, decide_eq_true_eq] at h
    rcases h with (((((h | h) | h) | h) | h) | h) | h <;> (subst h; decide)

theorem singleLine_escapeJsonString (s : String) : singleLine (escapeJsonString s) = true := by
  have h := escapeJsonString_rules s.data
  have e : (escapeJsonString s).data = (s.data.map sevenRules).flatten := h
  simp only [singleLine, e]
  apply List.all_eq_true.mpr
  intro x hx
  obtain ⟨l, hl, hxl⟩ := List.mem_flatten.mp hx
  obtain ⟨c, -, rfl⟩ := List.mem_map.mp hl
  exact List.all_eq_true.mp (sevenRules_singleLine c) x hxl

theorem singleLine_to_string (n : Int) : singleLine (to_string n) = true := by
  apply List.all_eq_true.mpr
  intro c hc
  have := number_char c (to_string_chars n c hc)
  simp [this.2.2.1, this.2.2.2]

theorem singleLine_deviceObject (i : Nat) (d : DPFPDD_DEV_INFO) :
    singleLine (deviceObject i d) = true := by
  simp +decide [deviceObject, singleLine_append, singleLine_escapeJsonString,
    singleLine_to_string]

theorem singleLine_commaSeparated (xs : List String) (h : ∀ x ∈ xs, singleLine x = true) :
    singleLine (commaSeparated xs) = true := by
  induction xs with
  | nil => rfl
  | cons x rest ih =>
    cases rest with
    | nil => exact h x (List.mem_cons_self _ _)
    | cons y rest' =>
      have hx := h x (List.mem_cons_self _ _)
      have hrest := ih (fun z hz => h z (List.mem_cons_of_mem _ hz))
      simp only [commaSeparated, singleLine_append, hx, Bool.true_and] at hrest ⊢
      simp +decide [hrest]


theorem renders_init (r : Int) :
    ∃ status rest, (status = "success" ∨ status = "error") ∧
      Renders ("\x7b\"action\":\"init\",\"status\":\""
          ++ (if r = 0 then "success" else "error") ++ "\",\"message\":\""
          ++ (if r = 0 then "DigitalPersona Win32 SDK initialized successfully"
              else "Failed to initialize DigitalPersona Win32 SDK")
          ++ "\",\"result_code\":" ++ to_string r ++ "\x7d")
        (Json.obj (("action", Json.str "init") :: ("status", Json.str status) :: rest)) := by
  by_cases h : r = 0
  · refine ⟨"success", [("message", Json.str "DigitalPersona Win32 SDK initialized successfully"),
      ("result_code", Json.num (to_string r))], Or.inl rfl, ?_⟩
    simp only [h, if_true]
    exact renders_result "init" "success" "DigitalPersona Win32 SDK initialized successfully" 0
      ⟨by decide, by decide⟩ ⟨by decide, by decide⟩ ⟨by decide, by decide⟩
  · refine ⟨"error", [("message", Json.str "Failed to initialize DigitalPersona Win32 SDK"),
      ("result_code", Json.num (to_string r))], Or.inr rfl, ?_⟩
    simp only [h, if_false]
    exact renders_result "init" "error" "Failed to initialize DigitalPersona Win32 SDK" r
      ⟨by decide, by decide⟩ ⟨by decide, by decide⟩ ⟨by decide, by decide⟩

theorem renders_cleanup (r : Int) :
    ∃ status rest, (status = "success" ∨ status = "error") ∧
      Renders ("\x7b\"action\":\"cleanup\",\"status\":\""
          ++ (if r = 0 then "success" else "error") ++ "\",\"message\":\""
          ++ (if r = 0 then "DigitalPersona Win32 SDK cleaned up successfully"
              else "Failed to cleanup DigitalPersona Win32 SDK")
          ++ "\",\"result_code\":" ++ to_string r ++ "\x7d")
        (Json.obj (("action", Json.str "cleanup") :: ("status", Json.str status) :: rest)) := by
  by_cases h : r = 0
  · refine ⟨"success", [("message", Json.str "DigitalPersona Win32 SDK cleaned up successfully"),
      ("result_code", Json.num (to_string r))], Or.inl rfl, ?_⟩
    simp only [h, if_true]
    exact renders_result "cleanup" "success" "DigitalPersona Win32 SDK cleaned up successfully" 0
      ⟨by decide, by decide⟩ ⟨by decide, by decide⟩ ⟨by decide, by decide⟩
  · refine ⟨"error", [("message", Json.str "Failed to cleanup DigitalPersona Win32 SDK"),
      ("result_code", Json.num (to_string r))], Or.inr rfl, ?_⟩
    simp only [h, if_false]
    exact renders_result "cleanup" "error" "Failed to cleanup DigitalPersona Win32 SDK" r
      ⟨by decide, by decide⟩ ⟨by decide, by decide⟩ ⟨by decide, by decide⟩

theorem renders_query_error (message : String) (r : Int)
    (hm : escapeJsonString message = message ∧ message.data.all escapable = true) :
    Renders ("\x7b\"action\":\"query\",\"status\":\"error\",\"message\":\"" ++ message
        ++ "\",\"result_code\":" ++ to_string r ++ "\x7d")
      (Json.obj [("action", Json.str "query"), ("status", Json.str "error"),
        ("message", Json.str message), ("result_code", Json.num (to_string r))]) := by
  have R := renders_result "query" "error" message r ⟨by decide, by decide⟩
    ⟨by decide, by decide⟩ hm
  have e : "\x7b\"action\":\"query\",\"status\":\"error\",\"message\":\"" ++ message
        ++ "\",\"result_code\":" ++ to_string r ++ "\x7d" =
      "\x7b\"action\":\"" ++ "query" ++ "\",\"status\":\"" ++ "error"
        ++ "\",\"message\":\"" ++ message ++ "\",\"result_code\":" ++ to_string r ++ "\x7d" := by
    simp [String.ext_iff]
  rw [e]
  exact R

theorem renders_catch_query (what : String) (hw : ∀ c ∈ what.data, escapable c = true) :
    Renders ("\x7b\"action\":\"query\",\"status\":\"error\",\"message\":\"Exception: "
        ++ escapeJsonString what ++ "\"\x7d")
      (Json.obj [("action", Json.str "query"), ("status", Json.str "error"),
        ("message", Json.str ("Exception: " ++ what))]) := by
  have R := renders_message "query" "error" "Exception: " what ⟨by decide, by decide⟩
    ⟨by decide, by decide⟩ ⟨by decide, by decide⟩ hw
  have e : "\x7b\"action\":\"query\",\"status\":\"error\",\"message\":\"Exception: "
        ++ escapeJsonString what ++ "\"\x7d" =
      "\x7b\"action\":\"" ++ "query" ++ "\",\"status\":\"" ++ "error"
        ++ "\",\"message\":\"" ++ "Exception: " ++ escapeJsonString what ++ "\"\x7d" := by
    simp [String.ext_iff]
  rw [e]
  exact R

theorem renders_unknown (command : String) (hc : ∀ c ∈ command.data, escapable c = true) :
    Renders ("\x7b\"action\":\"unknown\",\"status\":\"error\",\"message\":\"Unknown command: "
        ++ escapeJsonString command ++ "\"\x7d")
      (Json.obj [("action", Json.str "unknown"), ("status", Json.str "error"),
        ("message", Json.str ("Unknown command: " ++ command))]) := by
  have R := renders_message "unknown" "error" "Unknown command: " command
    ⟨by decide, by decide⟩ ⟨by decide, by decide⟩ ⟨by decide, by decide⟩ hc
  have e : "\x7b\"action\":\"unknown\",\"status\":\"error\",\"message\":\"Unknown command: "
        ++ escapeJsonString command ++ "\"\x7d" =
      "\x7b\"action\":\"" ++ "unknown" ++ "\",\"status\":\"" ++ "error"
        ++ "\",\"message\":\"" ++ "Unknown command: " ++ escapeJsonString command ++ "\"\x7d" := by
    simp [String.ext_iff]
  rw [e]
  exact R

set_option maxRecDepth 100000 in
/-- Every response of `executeCommand` holds no line feed and no carriage return; and when the
strings it embeds hold only characters that `escapeJsonString` handles, it is the compact
text of an object whose first two members are `action` and `status`. -/
theorem executeCommand_line_json (sdk : Sdk) (command out : String)
    (hout : (executeCommand sdk command).response = some out) :
    singleLine out = true ∧
      ((∀ c ∈ command.data, escapable c = true) →
        (∀ i, plainInfo (sdk.query2_infos i)) →
        (∀ n what, sdk.vector_alloc n = some what → ∀ c ∈ what.data, escapable c = true) →
        ∃ action status rest, (status = "success" ∨ status = "error") ∧
          Renders out
            (Json.obj (("action", Json.str action) :: ("status", Json.str status) :: rest))) := by
  by_cases hinit : command = "init"
  · subst hinit
    rw [executeCommand_init, executeInit_response] at hout
    have e := Option.some.inj hout
    subst e
    constructor
    · by_cases h : sdk.init_result = 0 <;>
        simp +decide [h, singleLine_append, singleLine_to_string]
    · intro _ _ _
      obtain ⟨status, rest, hs, R⟩ := renders_init sdk.init_result
      exact ⟨"init", status, rest, hs, R⟩
  by_cases hcleanup : command = "cleanup"
  · subst hcleanup
    rw [executeCommand_cleanup, executeCleanup_response] at hout
    have e := Option.some.inj hout
    subst e
    constructor
    · by_cases h : sdk.exit_result = 0 <;>
        simp +decide [h, singleLine_append, singleLine_to_string]
    · intro _ _ _
      obtain ⟨status, rest, hs, R⟩ := renders_cleanup sdk.exit_result
      exact ⟨"cleanup", status, rest, hs, R⟩
  by_cases hcapture : command = "capture"
  · subst hcapture
    rw [executeCommand_capture, executeCapture_response] at hout
    have e := Option.some.inj hout
    subst e
    constructor
    · simp +decide [singleLine_append, singleLine_to_string]
    · intro _ _ _
      exact ⟨"capture", "success", _, Or.inl rfl, renders_capture sdk.tick1 sdk.tick2⟩
  by_cases hquery : command = "query"
  · subst hquery
    rw [executeCommand_query] at hout
    by_cases hzero : sdk.query1_cnt = 0
    · rw [executeQuery_zero_count sdk hzero] at hout
      have e := Option.some.inj hout
      subst e
      constructor
      · simp +decide [singleLine_append, singleLine_to_string]
      · intro _ _ _
        exact ⟨"query", "success", _, Or.inl rfl, renders_zero_count sdk.query1_result⟩
    have hcnt : 0 < sdk.query1_cnt := Nat.pos_of_ne_zero hzero
    by_cases hfirst : sdk.query1_result = 0
    · cases halloc : sdk.vector_alloc sdk.query1_cnt with
      | some what =>
        rw [executeQuery_throws sdk what hfirst hcnt halloc, catchResponse_query] at hout
        have e := Option.some.inj hout
        subst e
        constructor
        · simp +decide [singleLine_append, singleLine_escapeJsonString]
        · intro _ _ hwhat
          exact ⟨"query", "error", _, Or.inr rfl,
            renders_catch_query what (hwhat _ what halloc)⟩
      | none =>
        by_cases hsecond : sdk.query2_result = 0
        · rcases Nat.lt_or_ge sdk.query1_cnt sdk.query2_cnt with hgt | hle
          · rw [executeQuery_out_of_bounds sdk hfirst hcnt halloc hsecond hgt] at hout
            exact absurd hout (by simp)
          · rw [executeQuery_lists sdk hfirst hcnt halloc hsecond hle] at hout
            have e := Option.some.inj hout
            subst e
            constructor
            · have hlist := singleLine_commaSeparated
                ((List.range sdk.query2_cnt).map (fun i => deviceObject i (sdk.query2_infos i)))
                (by
                  intro x hx
                  obtain ⟨i, -, rfl⟩ := List.mem_map.mp hx
                  exact singleLine_deviceObject i _)
              simp +decide [singleLine_append, singleLine_to_string, hlist]
            · intro _ hinfos _
              exact ⟨"query", "success", _, Or.inl rfl,
                renders_list sdk.query2_infos sdk.query2_cnt sdk.query2_result
                  (fun i _ => hinfos i)⟩
        · rw [executeQuery_detail_fails sdk hfirst hcnt halloc hsecond] at hout
          have e := Option.some.inj hout
          subst e
          constructor
          · simp +decide [singleLine_append, singleLine_to_string]
          · intro _ _ _
            exact ⟨"query", "error", _, Or.inr rfl,
              renders_query_error "Failed to query device details" sdk.query2_result
                ⟨by decide, by decide⟩⟩
    · rw [executeQuery_first_fails sdk hfirst hcnt] at hout
      have e := Option.some.inj hout
      subst e
      constructor
      · simp +decide [singleLine_append, singleLine_to_string]
      · intro _ _ _
        exact ⟨"query", "error", _, Or.inr rfl,
          renders_query_error "Failed to query devices" sdk.query1_result
            ⟨by decide, by decide⟩⟩
  · have hrun : executeCommand sdk command = executeUnknown command := by
      simp [executeCommand, hinit, hquery, hcapture, hcleanup]
    rw [hrun, executeUnknown_response] at hout
    have e := Option.some.inj hout
    subst e
    constructor
    · simp +decide [singleLine_append, singleLine_escapeJsonString]
    · intro hcommand _ _
      exact ⟨"unknown", "error", _, Or.inr rfl, renders_unknown command hcommand⟩


/-! ## C11: `capture` is simulated -/

/-- C11: for every environment (every SDK answer, every tick count) `capture` calls no SDK
entry point and returns the JSON object with `action` `capture`, `status` `success` (never
`error`), `quality` `simulated`, `deviceName` `DigitalPersona Reader (Win32)` and the `note`
that discloses the simulation. -/
theorem capture_simulated (sdk : Sdk) :
    executeCommand sdk "capture" =
        ⟨[], some ("\x7b\"action\":\"capture\",\"status\":\"success\",\"quality\":\"simulated\",\"deviceName\":\"DigitalPersona Reader (Win32)\",\"timestamp\":"
            ++ to_string sdk.tick1
            ++ ",\"message\":\"Fingerprint capture simulated - native win32 library communication successful\",\"simulatedData\":\"DP_WIN32_FINGERPRINT_DATA_"
            ++ to_string sdk.tick2
            ++ "\",\"note\":\"This is a simulated response from native win32 libraries\"\x7d")⟩ ∧
      parseJson ("\x7b\"action\":\"capture\",\"status\":\"success\",\"quality\":\"simulated\",\"deviceName\":\"DigitalPersona Reader (Win32)\",\"timestamp\":"
            ++ to_string sdk.tick1
            ++ ",\"message\":\"Fingerprint capture simulated - native win32 library communication successful\",\"simulatedData\":\"DP_WIN32_FINGERPRINT_DATA_"
            ++ to_string sdk.tick2
            ++ "\",\"note\":\"This is a simulated response from native win32 libraries\"\x7d") =
        some (Json.obj [("action", Json.str "capture"), ("status", Json.str "success"),
          ("quality", Json.str "simulated"),
          ("deviceName", Json.str "DigitalPersona Reader (Win32)"),
          ("timestamp", Json.num (to_string sdk.tick1)),
          ("message", Json.str
            "Fingerprint capture simulated - native win32 library communication successful"),
          ("simulatedData", Json.str ("DP_WIN32_FINGERPRINT_DATA_" ++ to_string sdk.tick2)),
          ("note", Json.str "This is a simulated response from native win32 libraries")]) ∧
      Json.field "status" (Json.obj [("action", Json.str "capture"), ("status", Json.str "success"),
          ("quality", Json.str "simulated"),
          ("deviceName", Json.str "DigitalPersona Reader (Win32)"),
          ("timestamp", Json.num (to_string sdk.tick1)),
          ("message", Json.str
            "Fingerprint capture simulated - native win32 library communication successful"),
          ("simulatedData", Json.str ("DP_WIN32_FINGERPRINT_DATA_" ++ to_string sdk.tick2)),
          ("note", Json.str "This is a simulated response from native win32 libraries")]) ≠ some (Json.str "error") := by
  refine ⟨?_, parseJson_of_renders _ _ (renders_capture sdk.tick1 sdk.tick2), ?_⟩
  · rw [executeCommand_capture, executeCapture_response]
  · rw [show Json.field "status" (Json.obj _) = some (Json.str "success") from by rfl]
    simp

/-! ## C12: the two tick counts of `capture` -/

set_option maxRecDepth 100000 in
/-- C12 fails on the code: the tick counter is read twice, and when it advances from 1000 to
1001 between the reads the `timestamp` is 1000 while `simulatedData` carries 1001. -/
theorem capture_tick_counts_differ :
    (executeCommand tickingSdk "capture").response =
        some "\x7b\"action\":\"capture\",\"status\":\"success\",\"quality\":\"simulated\",\"deviceName\":\"DigitalPersona Reader (Win32)\",\"timestamp\":1000,\"message\":\"Fingerprint capture simulated - native win32 library communication successful\",\"simulatedData\":\"DP_WIN32_FINGERPRINT_DATA_1001\",\"note\":\"This is a simulated response from native win32 libraries\"\x7d" ∧
      (parseJson "\x7b\"action\":\"capture\",\"status\":\"success\",\"quality\":\"simulated\",\"deviceName\":\"DigitalPersona Reader (Win32)\",\"timestamp\":1000,\"message\":\"Fingerprint capture simulated - native win32 library communication successful\",\"simulatedData\":\"DP_WIN32_FINGERPRINT_DATA_1001\",\"note\":\"This is a simulated response from native win32 libraries\"\x7d").bind
          (Json.field "timestamp") = some (Json.num "1000") ∧
      (parseJson "\x7b\"action\":\"capture\",\"status\":\"success\",\"quality\":\"simulated\",\"deviceName\":\"DigitalPersona Reader (Win32)\",\"timestamp\":1000,\"message\":\"Fingerprint capture simulated - native win32 library communication successful\",\"simulatedData\":\"DP_WIN32_FINGERPRINT_DATA_1001\",\"note\":\"This is a simulated response from native win32 libraries\"\x7d").bind
          (Json.field "simulatedData") = some (Json.str "DP_WIN32_FINGERPRINT_DATA_1001") ∧
      readInt "1000" ≠ readInt "1001" :=
  ⟨by decide, by rfl, by rfl, by decide⟩

/-- C12 as amended: in every `capture` response the `timestamp` field is the value of the
first read of the tick counter and the number after `DP_WIN32_FINGERPRINT_DATA_` in
`simulatedData` is the value of the second read; the two texts are the same number exactly
when the two reads returned the same value. -/
theorem capture_tick_counts (sdk : Sdk) :
    ∃ out members,
      (executeCommand sdk "capture").response = some out ∧
      parseJson out = some (Json.obj members) ∧
      Json.field "timestamp" (Json.obj members) = some (Json.num (to_string sdk.tick1)) ∧
      Json.field "simulatedData" (Json.obj members) =
        some (Json.str ("DP_WIN32_FINGERPRINT_DATA_" ++ to_string sdk.tick2)) ∧
      readInt (to_string sdk.tick1) = some (sdk.tick1 : Int) ∧
      readInt (to_string sdk.tick2) = some (sdk.tick2 : Int) ∧
      (to_string sdk.tick1 = to_string sdk.tick2 ↔ sdk.tick1 = sdk.tick2) := by
  rw [executeCommand_capture, executeCapture_response]
  refine ⟨_, _, rfl, parseJson_of_renders _ _ (renders_capture sdk.tick1 sdk.tick2), by rfl,
    by rfl, readInt_to_string _, readInt_to_string _, ?_⟩
  constructor
  · intro h
    exact Int.ofNat.inj (to_string_injective _ _ h)
  · intro h
    rw [h]


/-! ## C13: the exit code -/

/-- C13: in every run that has an output, the exit code is 1 exactly when no argument was
supplied; then no SDK call is made and the output is the `No command specified` object.
With a command, whatever the command and whatever the SDK answers, the exit code is 0 and
the output is the response of `executeCommand` followed by a line feed. -/
theorem main_exit_code (sdk : Sdk) (argv : List String)
    (hdefined : (main sdk argv).stdout ≠ none) :
    ((main sdk argv).code = 1 ↔ argv.length < 2) ∧
      (argv.length < 2 →
        main sdk argv = ⟨[], some "\x7b\"error\":\"No command specified\"\x7d\n", 1⟩) ∧
      (∀ command, argv[1]? = some command →
        (main sdk argv).code = 0 ∧
          (main sdk argv).calls = (executeCommand sdk command).calls ∧
          ∃ out, (executeCommand sdk command).response = some out ∧
            (main sdk argv).stdout = some (out ++ "\n")) := by
  match argv, hdefined with
  | [], _ => exact ⟨by simp [main], fun _ => rfl, fun c hc => by simp at hc⟩
  | [_], _ => exact ⟨by simp [main], fun _ => rfl, fun c hc => by simp at hc⟩
  | _ :: command :: _, hdefined =>
    refine ⟨by simp [main], fun h => absurd h (by simp), ?_⟩
    intro c hc
    have hcc : command = c := by simpa using hc
    subst hcc
    refine ⟨rfl, rfl, ?_⟩
    cases hr : (executeCommand sdk command).response with
    | none => exact absurd (by simp [main, hr]) hdefined
    | some out => exact ⟨out, rfl, by simp [main, hr]⟩

/-- Witness for C13: `init` fails with -1, the response is an error object and the exit code
is 0. -/
theorem main_exit_code_witness :
    ((main failingSdk ["wrapper", "init"]).code = 1 ↔ ["wrapper", "init"].length < 2) ∧
      (["wrapper", "init"].length < 2 →
        main failingSdk ["wrapper", "init"] =
          ⟨[], some "\x7b\"error\":\"No command specified\"\x7d\n", 1⟩) ∧
      (∀ command, ["wrapper", "init"][1]? = some command →
        (main failingSdk ["wrapper", "init"]).code = 0 ∧
          (main failingSdk ["wrapper", "init"]).calls =
            (executeCommand failingSdk command).calls ∧
          ∃ out, (executeCommand failingSdk command).response = some out ∧
            (main failingSdk ["wrapper", "init"]).stdout = some (out ++ "\n")) :=
  main_exit_code failingSdk ["wrapper", "init"] (by decide)

/-! ## C14: what every code path prints -/

/-- C14 fails on the code: with no argument `main` prints the object
`{"error":"No command specified"}`, which has neither an `action` nor a `status` member. -/
theorem main_without_argument_has_no_action :
    main noDeviceSdk ["wrapper"] =
        ⟨[], some "\x7b\"error\":\"No command specified\"\x7d\n", 1⟩ ∧
      parseJson "\x7b\"error\":\"No command specified\"\x7d\n" =
        some (Json.obj [("error", Json.str "No command specified")]) ∧
      Json.field "action" (Json.obj [("error", Json.str "No command specified")]) = none ∧
      Json.field "status" (Json.obj [("error", Json.str "No command specified")]) = none :=
  ⟨by decide, by rfl, by rfl, by rfl⟩

/-- C14 as amended: every run that has an output prints one JSON object, provided the strings
it embeds (the command, the strings of the device records, the text of a caught exception)
hold only characters that `escapeJsonString` handles.  With no argument the object is
`{"error":"No command specified"}`; with a command it has an `action` member and a `status`
member that is `success` or `error`. -/
theorem main_prints_json (sdk : Sdk) (argv : List String)
    (hdefined : (main sdk argv).stdout ≠ none)
    (hcommand : ∀ command, argv[1]? = some command → ∀ c ∈ command.data, escapable c = true)
    (hinfos : ∀ i, plainInfo (sdk.query2_infos i))
    (hwhat : ∀ n what, sdk.vector_alloc n = some what → ∀ c ∈ what.data, escapable c = true) :
    ∃ line members,
      (main sdk argv).stdout = some line ∧ parseJson line = some (Json.obj members) ∧
      (argv.length < 2 → members = [("error", Json.str "No command specified")]) ∧
      (2 ≤ argv.length →
        ∃ action status,
          Json.field "action" (Json.obj members) = some (Json.str action) ∧
          Json.field "status" (Json.obj members) = some (Json.str status) ∧
          (status = "success" ∨ status = "error")) := by
  match argv, hdefined, hcommand with
  | [], _, _ =>
    exact ⟨_, _, rfl, by rfl, fun _ => rfl, fun h => absurd h (by simp)⟩
  | [_], _, _ =>
    exact ⟨_, _, rfl, by rfl, fun _ => rfl, fun h => absurd h (by simp)⟩
  | _ :: command :: _, hdefined, hcommand =>
    cases hr : (executeCommand sdk command).response with
    | none => exact absurd (by simp [main, hr]) hdefined
    | some out =>
      obtain ⟨action, status, rest, hs, R⟩ :=
        (executeCommand_line_json sdk command out hr).2 (hcommand command (by simp)) hinfos hwhat
      refine ⟨out ++ "\n", _, by simp [main, hr], parseJson_line_of_renders _ _ R,
        fun h => absurd h (by simp), fun _ => ⟨action, status, by rfl, by rfl, hs⟩⟩

/-- Witness for C14 as amended: `query` with two readers, `query` when the construction of
the device vector throws, and the run without argument. -/
theorem main_prints_json_witness :
    (∃ line members,
      (main twoDeviceSdk ["wrapper", "query"]).stdout = some line ∧
      parseJson line = some (Json.obj members) ∧
      (["wrapper", "query"].length < 2 →
        members = [("error", Json.str "No command specified")]) ∧
      (2 ≤ ["wrapper", "query"].length →
        ∃ action status,
          Json.field "action" (Json.obj members) = some (Json.str action) ∧
          Json.field "status" (Json.obj members) = some (Json.str status) ∧
          (status = "success" ∨ status = "error"))) ∧
    (∃ line members,
      (main throwingSdk ["wrapper", "query"]).stdout = some line ∧
      parseJson line = some (Json.obj members) ∧
      (["wrapper", "query"].length < 2 →
        members = [("error", Json.str "No command specified")]) ∧
      (2 ≤ ["wrapper", "query"].length →
        ∃ action status,
          Json.field "action" (Json.obj members) = some (Json.str action) ∧
          Json.field "status" (Json.obj members) = some (Json.str status) ∧
          (status = "success" ∨ status = "error"))) ∧
    (∃ line members,
      (main twoDeviceSdk ["wrapper"]).stdout = some line ∧
      parseJson line = some (Json.obj members) ∧
      (["wrapper"].length < 2 →
        members = [("error", Json.str "No command specified")]) ∧
      (2 ≤ ["wrapper"].length →
        ∃ action status,
          Json.field "action" (Json.obj members) = some (Json.str action) ∧
          Json.field "status" (Json.obj members) = some (Json.str status) ∧
          (status = "success" ∨ status = "error"))) :=
  ⟨main_prints_json twoDeviceSdk ["wrapper", "query"] (by decide)
      (fun command h => by
        have e : command = "query" := by simpa using h.symm
        subst e
        exact plainText "query" (by decide))
      (fun _ => sampleInfo_plain) (fun _ _ h => by simp [twoDeviceSdk] at h),
    main_prints_json throwingSdk ["wrapper", "query"] (by decide)
      (fun command h => by
        have e : command = "query" := by simpa using h.symm
        subst e
        exact plainText "query" (by decide))
      (fun _ => sampleInfo_plain)
      (fun _ what h => by
        have e : what = "bad allocation" := by simpa [throwingSdk] using h.symm
        subst e
        exact plainText "bad allocation" (by decide)),
    main_prints_json twoDeviceSdk ["wrapper"] (by decide) (fun _ h => by simp at h)
      (fun _ => sampleInfo_plain) (fun _ _ h => by simp [twoDeviceSdk] at h)⟩

/-! ## C15: one line of output -/

/-- C15: for every command string and every environment, the string `executeCommand` returns
holds no line feed and no carriage return, so `main` prints exactly one line: the response
followed by the one line feed that `main` writes. -/
theorem response_is_one_line (sdk : Sdk) (command out program : String) (more : List String)
    (hout : (executeCommand sdk command).response = some out) :
    singleLine out = true ∧ '\n' ∉ out.data ∧ '\r' ∉ out.data ∧
      (main sdk (program :: command :: more)).stdout = some (out ++ "\n") ∧
      (out ++ "\n").data.count '\n' = 1 := by
  have hline := (executeCommand_line_json sdk command out hout).1
  have hall : ∀ c ∈ out.data, c ≠ '\n' ∧ c ≠ '\r' := by
    intro c hc
    have := List.all_eq_true.mp hline c hc
    simpa using this
  have hn : '\n' ∉ out.data := fun h => (hall _ h).1 rfl
  have hr : '\r' ∉ out.data := fun h => (hall _ h).2 rfl
  refine ⟨hline, hn, hr, by simp [main, hout], ?_⟩
  rw [String.data_append, List.count_append, List.count_eq_zero_of_not_mem hn]
  rfl

set_option maxRecDepth 100000 in
/-- Witness for C15: an unknown command that holds a carriage return and a line feed, and
`query` with a reader whose name holds them. -/
theorem response_is_one_line_witness :
    (singleLine "\x7b\"action\":\"unknown\",\"status\":\"error\",\"message\":\"Unknown command: a\\r\\nb\"\x7d" = true ∧
      '\n' ∉ "\x7b\"action\":\"unknown\",\"status\":\"error\",\"message\":\"Unknown command: a\\r\\nb\"\x7d".data ∧
      '\r' ∉ "\x7b\"action\":\"unknown\",\"status\":\"error\",\"message\":\"Unknown command: a\\r\\nb\"\x7d".data ∧
      (main noDeviceSdk ("wrapper" :: "a\r\nb" :: [])).stdout =
        some ("\x7b\"action\":\"unknown\",\"status\":\"error\",\"message\":\"Unknown command: a\\r\\nb\"\x7d" ++ "\n") ∧
      ("\x7b\"action\":\"unknown\",\"status\":\"error\",\"message\":\"Unknown command: a\\r\\nb\"\x7d" ++ "\n").data.count '\n' = 1) ∧
    (singleLine "\x7b\"action\":\"query\",\"status\":\"success\",\"devices\":[\x7b\"id\":0,\"name\":\"Reader\\r\\nA\",\"vendor_name\":\"DigitalPersona\",\"product_name\":\"Fingerprint Reader\",\"serial_number\":\"A1B2\",\"model\":\"Fingerprint Reader\",\"connected\":true\x7d],\"deviceCount\":1,\"message\":\"Device enumeration completed\",\"result_code\":0\x7d" = true ∧
      '\n' ∉ "\x7b\"action\":\"query\",\"status\":\"success\",\"devices\":[\x7b\"id\":0,\"name\":\"Reader\\r\\nA\",\"vendor_name\":\"DigitalPersona\",\"product_name\":\"Fingerprint Reader\",\"serial_number\":\"A1B2\",\"model\":\"Fingerprint Reader\",\"connected\":true\x7d],\"deviceCount\":1,\"message\":\"Device enumeration completed\",\"result_code\":0\x7d".data ∧
      '\r' ∉ "\x7b\"action\":\"query\",\"status\":\"success\",\"devices\":[\x7b\"id\":0,\"name\":\"Reader\\r\\nA\",\"vendor_name\":\"DigitalPersona\",\"product_name\":\"Fingerprint Reader\",\"serial_number\":\"A1B2\",\"model\":\"Fingerprint Reader\",\"connected\":true\x7d],\"deviceCount\":1,\"message\":\"Device enumeration completed\",\"result_code\":0\x7d".data ∧
      (main twoLineNameSdk ("wrapper" :: "query" :: [])).stdout =
        some ("\x7b\"action\":\"query\",\"status\":\"success\",\"devices\":[\x7b\"id\":0,\"name\":\"Reader\\r\\nA\",\"vendor_name\":\"DigitalPersona\",\"product_name\":\"Fingerprint Reader\",\"serial_number\":\"A1B2\",\"model\":\"Fingerprint Reader\",\"connected\":true\x7d],\"deviceCount\":1,\"message\":\"Device enumeration completed\",\"result_code\":0\x7d" ++ "\n") ∧
      ("\x7b\"action\":\"query\",\"status\":\"success\",\"devices\":[\x7b\"id\":0,\"name\":\"Reader\\r\\nA\",\"vendor_name\":\"DigitalPersona\",\"product_name\":\"Fingerprint Reader\",\"serial_number\":\"A1B2\",\"model\":\"Fingerprint Reader\",\"connected\":true\x7d],\"deviceCount\":1,\"message\":\"Device enumeration completed\",\"result_code\":0\x7d" ++ "\n").data.count '\n' = 1) :=
  ⟨response_is_one_line noDeviceSdk "a\r\nb"
      "\x7b\"action\":\"unknown\",\"status\":\"error\",\"message\":\"Unknown command: a\\r\\nb\"\x7d"
      "wrapper" [] (by decide),
    response_is_one_line twoLineNameSdk "query"
      "\x7b\"action\":\"query\",\"status\":\"success\",\"devices\":[\x7b\"id\":0,\"name\":\"Reader\\r\\nA\",\"vendor_name\":\"DigitalPersona\",\"product_name\":\"Fingerprint Reader\",\"serial_number\":\"A1B2\",\"model\":\"Fingerprint Reader\",\"connected\":true\x7d],\"deviceCount\":1,\"message\":\"Device enumeration completed\",\"result_code\":0\x7d"
      "wrapper" [] (by decide)⟩

/-! ## C16: the seven escaping rules -/

/-- C16: `escapeJsonString` writes, character by character and in order, what the seven rules
write: a backslash and `"`, `\`, `b`, `f`, `n`, `r`, `t` for the double quote, the backslash,
backspace, form feed, line feed, carriage return and tab, and the character itself for every
other one.  The output length is the input length plus the number of replaced characters,
and when the only control characters of `s` are among backspace, form feed, line feed,
carriage return and tab, decoding the quoted output as a JSON string yields `s`. -/
theorem escapeJsonString_seven_rules (s : String) :
    (escapeJsonString s).data = (s.data.map sevenRules).flatten ∧
      (sevenRules '"' = ['\\', '"'] ∧ sevenRules '\\' = ['\\', '\\'] ∧
        sevenRules '\x08' = ['\\', 'b'] ∧ sevenRules '\x0c' = ['\\', 'f'] ∧
        sevenRules '\n' = ['\\', 'n'] ∧ sevenRules '\r' = ['\\', 'r'] ∧
        sevenRules '\t' = ['\\', 't'] ∧
        ∀ c : Char, c ≠ '"' → c ≠ '\\' → c ≠ '\x08' → c ≠ '\x0c' → c ≠ '\n' → c ≠ '\r' →
          c ≠ '\t' → sevenRules c = [c]) ∧
      (escapeJsonString s).length = s.length + s.data.countP isEscaped ∧
      ((∀ c ∈ s.data,
          c.toNat < 0x20 → c = '\x08' ∨ c = '\x0c' ∨ c = '\n' ∨ c = '\r' ∨ c = '\t') →
        decodeJsonString ("\"" ++ escapeJsonString s ++ "\"") = some s) := by
  refine ⟨escapeJsonString_rules s.data, ⟨by decide, by decide, by decide, by decide, by decide,
    by decide, by decide, ?_⟩, ?_, ?_⟩
  · intro c h1 h2 h3 h4 h5 h6 h7
    simp [sevenRules, h1, h2, h3, h4, h5, h6, h7]
  · have h := escapeJsonString_rules s.data
    rw [String.length, show escapeJsonString s = escapeJsonString (String.mk s.data) from rfl, h,
      sevenRules_join_length]
    rfl
  · intro hs
    have hread := readString_escapeJsonString s.data
      (fun c hc => escapable_of_controls c (hs c hc)) []
    have hdata : ("\"" ++ escapeJsonString s ++ "\"").data =
        '"' :: ((escapeJsonString (String.mk s.data)).data ++ ['"']) := by
      simp [String.data_append]
    simp only [decodeJsonString, hdata, hread]

/-- Witness for C16: a string with a quote, a backslash, a line feed and a tab. -/
theorem escapeJsonString_seven_rules_witness :
    decodeJsonString ("\"" ++ escapeJsonString "say \"hi\\\"\n\tend" ++ "\"") =
      some "say \"hi\\\"\n\tend" :=
  (escapeJsonString_seven_rules "say \"hi\\\"\n\tend").2.2.2 (by decide)

/-! ## C17: escaping is injective -/

/-- C17: `escapeJsonString` is injective: two strings with the same escaped text are the same
string. -/
theorem escapeJsonString_injective (s t : String)
    (h : escapeJsonString s = escapeJsonString t) : s = t := by
  have hs := unescape_escapeJsonString s.data
  have ht := unescape_escapeJsonString t.data
  have e : escapeJsonString (String.mk s.data) = escapeJsonString (String.mk t.data) := h
  rw [e, ht] at hs
  exact String.ext hs.symm

/-- Witness for C17: equal escaped texts of a string with a backspace and a backslash. -/
theorem escapeJsonString_injective_witness :
    escapeJsonString "a\x08\\b" = escapeJsonString "a\x08\\b" ∧ "a\x08\\b" = "a\x08\\b" :=
  ⟨rfl, escapeJsonString_injective "a\x08\\b" "a\x08\\b" rfl⟩


/-! ## C18: reads of the device buffer -/

/-- C18 fails on the code: the buffer is sized by the count of the first call and the loop is
bounded by the count the second call writes back.  With a first count of 1 and a second count
of 2, both calls returning 0, the loop reads record 1 of a one-record buffer. -/
theorem query_reads_outside_buffer :
    growingCountSdk.query1_result = 0 ∧ growingCountSdk.query2_result = 0 ∧
      ((List.range growingCountSdk.query1_cnt).map growingCountSdk.query2_infos).length = 1 ∧
      ((List.range growingCountSdk.query1_cnt).map growingCountSdk.query2_infos)[1]? = none ∧
      (List.range growingCountSdk.query2_cnt) = [0, 1] ∧
      executeCommand growingCountSdk "query" =
        ⟨[SdkCall.dpfpdd_query_devices 0 none 0, SdkCall.dpfpdd_query_devices 1 (some 1) 0],
          none⟩ :=
  ⟨by decide, by decide, by decide, by rfl, by decide, by decide⟩

end DigitalPersona
